import Mathlib

/-!
Bookman: the data-access layer and its HTTP handlers

A shallow embedding of `internal/models`, `internal/db/db.go`,
`internal/api/handlers.go` and the subcommands of `cmd/cli`.

The SQLite database behind `db.DB` is a value of type `Store`: the three
tables of the schema created in `setupTestDB` (`books`, `collections`,
`collection_books`), the two `sqlite_sequence` counters kept for the
`AUTOINCREMENT` keys, and the connection's `foreign_keys` setting.  Every
method of `db.DB` is a function of the store; a method that executes an
`INSERT`, `UPDATE` or `DELETE` returns its Go result together with the store
after the statement.

Modelling conventions.
* Text columns hold the Go strings bound by the statements of `db.go`, so a
  column is never `NULL`.  SQLite compares text with the `BINARY` collation
  (byte order of the UTF-8 encoding), which is the code point order of
  Lean strings.
* `datetime('now')` has a resolution of one second.  A timestamp is the
  number of whole seconds since the zero `time.Time`; the text written by
  SQLite and read back with `time.Parse("2006-01-02 15:04:05", _)` denotes
  that number.  The reading of the storage clock is the argument `now` of
  every statement that evaluates `datetime('now')`.
* Go `int` values are integers (`Int`).  SQLite row ids end at
  `maxRowid`, the largest 64-bit signed integer: an insert into a table whose
  largest row id is in use fails with `SQLITE_FULL`.
-/

namespace Bookman

/-! ## internal/models -/

/-- Go struct `models.Book`. -/
structure Book where
  ID : Int
  Title : String
  Author : String
  PublishedDate : String
  Edition : String
  Description : String
  Genre : String
  CreatedAt : Nat
  UpdatedAt : Nat
deriving DecidableEq, Repr

/-- Go struct `models.Collection`. -/
structure Collection where
  ID : Int
  Name : String
  Books : List Book
deriving DecidableEq, Repr

/-! ## The database -/

/-- Row of table `books`. -/
structure BookRow where
  id : Int
  title : String
  author : String
  published_date : String
  edition : String
  description : String
  genre : String
  created_at : Nat
  updated_at : Nat
deriving DecidableEq, Repr

/-- Row of table `collections`. -/
structure CollectionRow where
  id : Int
  name : String
  created_at : Nat
  updated_at : Nat
deriving DecidableEq, Repr

/-- Row of table `collection_books`. -/
structure CollectionBookRow where
  collection_id : Int
  book_id : Int
  added_at : Nat
deriving DecidableEq, Repr

/-- The database behind a `db.DB` handle. -/
structure Store where
  books : List BookRow
  collections : List CollectionRow
  collection_books : List CollectionBookRow
  /-- The `sqlite_sequence` entry of table `books`. -/
  books_seq : Int
  /-- The `sqlite_sequence` entry of table `collections`. -/
  collections_seq : Int
  /-- The connection setting `PRAGMA foreign_keys`. -/
  foreign_keys : Bool
deriving DecidableEq, Repr

/-- Errors returned by `database/sql` and the SQLite driver. -/
inductive DBError where
  /-- The value `sql.ErrNoRows`. -/
  | ErrNoRows
  /-- A constraint of the schema rejected the statement. -/
  | constraint (msg : String)
  /-- The result code `SQLITE_FULL`: no row id is left for the insert. -/
  | full
deriving DecidableEq, Repr

/-- Go method `Error()` of the error values. -/
def DBError.Error : DBError → String
  | .ErrNoRows => "sql: no rows in result set"
  | .constraint msg => msg
  | .full => "database or disk is full"

/-- The schema of `setupTestDB` right after `CREATE TABLE`: no rows. -/
def emptyStore (fk : Bool) : Store :=
  ⟨[], [], [], 0, 0, fk⟩

/-- The largest element of a non-empty list `i :: rest`. -/
def maxId (i : Int) (rest : List Int) : Int :=
  rest.foldl max i

/-- Row id chosen by SQLite for an `INTEGER PRIMARY KEY AUTOINCREMENT` column:
one more than the largest row id of the table (1 when it is empty), and more
than the `sqlite_sequence` entry. -/
def nextRowid (ids : List Int) (seq : Int) : Int :=
  let v : Int :=
    match ids with
    | [] => 1
    | i :: rest => maxId i rest + 1
  if v < seq + 1 then seq + 1 else v

/-- The largest row id of SQLite, the largest 64-bit signed integer. -/
def maxRowid : Int := 9223372036854775807

/-- An insert into an `AUTOINCREMENT` table fails with `SQLITE_FULL` when the
largest row id is in use: it is the `sqlite_sequence` entry or the id of a row
of the table. -/
def rowidFull (ids : List Int) (seq : Int) : Bool :=
  decide (maxRowid ≤ seq) || ids.any (fun i => decide (maxRowid ≤ i))

/-- `rows.Scan` followed by the two `time.Parse` calls: a row of `books` as a
`models.Book`. -/
def scanBook (r : BookRow) : Book :=
  ⟨r.id, r.title, r.author, r.published_date, r.edition, r.description, r.genre,
    r.created_at, r.updated_at⟩

/-! ## internal/db/db.go -/

/-- `SELECT ... FROM books WHERE id = ?` read with `QueryRow`. -/
def GetBook (db : Store) (id : Int) : Except DBError Book :=
  match db.books.find? (fun r => r.id == id) with
  | none => .error .ErrNoRows
  | some r => .ok (scanBook r)

/-- One `AND` term appended to the query of `GetBooks`. -/
inductive Cond where
  /-- The term `author = ?`. -/
  | authorEq (arg : String)
  /-- The term `genre = ?`. -/
  | genreEq (arg : String)
  /-- The term `published_date >= ?`. -/
  | publishedGe (arg : String)
  /-- The term `published_date <= ?`. -/
  | publishedLe (arg : String)
deriving DecidableEq, Repr

/-- Text comparison `a < b` of SQLite under the `BINARY` collation, on the
characters of the two texts: the first differing character decides, and a
proper initial segment is smaller. -/
def textLt : List Char → List Char → Bool
  | [], [] => false
  | [], _ :: _ => true
  | _ :: _, [] => false
  | a :: as, b :: bs =>
    if a < b then true else if b < a then false else textLt as bs

/-- Text comparison `a <= b` of SQLite. -/
def textLe (a b : String) : Bool :=
  !textLt b.data a.data

/-- Value of a term of the `WHERE` clause on a row. -/
def Cond.holds (r : BookRow) : Cond → Bool
  | .authorEq arg => r.author == arg
  | .genreEq arg => r.genre == arg
  | .publishedGe arg => textLe arg r.published_date
  | .publishedLe arg => textLe r.published_date arg

/-- The terms that `GetBooks` appends to `WHERE 1=1`, in order. -/
def GetBooksQuery (author genre from_ to_ : String) : List Cond :=
  let query : List Cond := []
  let query := if author != "" then query ++ [Cond.authorEq author] else query
  let query := if genre != "" then query ++ [Cond.genreEq genre] else query
  let query := if from_ != "" then query ++ [Cond.publishedGe from_] else query
  let query := if to_ != "" then query ++ [Cond.publishedLe to_] else query
  query

/-- Go method `GetBooks`: the rows that satisfy every term of the query, each
scanned into a `models.Book`. -/
def GetBooks (db : Store) (author genre from_ to_ : String) :
    Except DBError (List Book) :=
  let query := GetBooksQuery author genre from_ to_
  .ok ((db.books.filter (fun r => query.all (fun c => c.holds r))).map scanBook)

/-- Go method `CreateBook`: the `INSERT` gives the row a fresh id and the
default `datetime('now')` in both timestamp columns; the caller's `ID`,
`CreatedAt` and `UpdatedAt` are not bound.  When no row id is left the
statement fails, nothing is inserted and the method returns 0 and the error. -/
def CreateBook (db : Store) (now : Nat) (b : Book) : Except DBError Int × Store :=
  if rowidFull (db.books.map (fun r => r.id)) db.books_seq then
    (.error .full, db)
  else
    let id := nextRowid (db.books.map (fun r => r.id)) db.books_seq
    let row : BookRow :=
      ⟨id, b.Title, b.Author, b.PublishedDate, b.Edition, b.Description, b.Genre, now, now⟩
    (.ok id, { db with books := db.books ++ [row], books_seq := id })

/-- Effect of `UPDATE books SET title = ?, author = ?, published_date = ?,
edition = ?, description = ?, genre = ?, updated_at = datetime('now')
WHERE id = ?` on one row. -/
def setBook (now : Nat) (b : Book) (r : BookRow) : BookRow :=
  if r.id == b.ID then
    { r with title := b.Title, author := b.Author, published_date := b.PublishedDate,
             edition := b.Edition, description := b.Description, genre := b.Genre,
             updated_at := now }
  else r

/-- Go method `UpdateBook`: `UPDATE books SET ... WHERE id = ?`.  A statement
that matches no row is not an error. -/
def UpdateBook (db : Store) (now : Nat) (b : Book) : Except DBError Unit × Store :=
  (.ok (), { db with books := db.books.map (setBook now b) })

/-- Go method `DeleteBook`: `DELETE FROM books WHERE id = ?`.  The
`ON DELETE CASCADE` of `collection_books` acts when foreign keys are
enforced on the connection. -/
def DeleteBook (db : Store) (id : Int) : Except DBError Unit × Store :=
  let books := db.books.filter (fun r => !(r.id == id))
  let members :=
    if db.foreign_keys && db.books.any (fun r => r.id == id) then
      db.collection_books.filter (fun m => !(m.book_id == id))
    else db.collection_books
  (.ok (), { db with books := books, collection_books := members })

/-- Go method `GetCollections`: `SELECT id, name FROM collections`; `Books`
stays the nil slice. -/
def GetCollections (db : Store) : Except DBError (List Collection) :=
  .ok (db.collections.map (fun r => ⟨r.id, r.name, []⟩))

/-- Rows of the join `books b JOIN collection_books cb ON b.id = cb.book_id
WHERE cb.collection_id = ?`: the membership rows of the collection are read
through the primary key of `collection_books`, that is in the order of
`book_id`, and each is joined with the book of that id. -/
def joinBooks (db : Store) (id : Int) : List BookRow :=
  ((db.collection_books.filter (fun m => m.collection_id == id)).insertionSort
      (fun m1 m2 => m1.book_id ≤ m2.book_id)).flatMap
    (fun m => db.books.filter (fun r => r.id == m.book_id))

/-- Go method `GetCollection`. -/
def GetCollection (db : Store) (id : Int) : Except DBError Collection :=
  match db.collections.find? (fun r => r.id == id) with
  | none => .error .ErrNoRows
  | some r => .ok ⟨r.id, r.name, (joinBooks db id).map scanBook⟩

/-- Go method `CreateCollection`; it fails like `CreateBook` when no row id is
left. -/
def CreateCollection (db : Store) (now : Nat) (c : Collection) :
    Except DBError Int × Store :=
  if rowidFull (db.collections.map (fun r => r.id)) db.collections_seq then
    (.error .full, db)
  else
    let id := nextRowid (db.collections.map (fun r => r.id)) db.collections_seq
    (.ok id, { db with collections := db.collections ++ [⟨id, c.Name, now, now⟩],
                       collections_seq := id })

/-- Go method `UpdateCollection`: `UPDATE collections SET name = ? WHERE id = ?`. -/
def UpdateCollection (db : Store) (c : Collection) : Except DBError Unit × Store :=
  (.ok (), { db with collections := db.collections.map
                      (fun r => if r.id == c.ID then { r with name := c.Name } else r) })

/-- Go method `DeleteCollection`, with the cascade when foreign keys are
enforced. -/
def DeleteCollection (db : Store) (id : Int) : Except DBError Unit × Store :=
  let collections := db.collections.filter (fun r => !(r.id == id))
  let members :=
    if db.foreign_keys && db.collections.any (fun r => r.id == id) then
      db.collection_books.filter (fun m => !(m.collection_id == id))
    else db.collection_books
  (.ok (), { db with collections := collections, collection_books := members })

/-- Go method `AddBookToCollection`: the `INSERT` is rejected by the composite
primary key when the pair is present and, when foreign keys are enforced, by a
missing parent row. -/
def AddBookToCollection (db : Store) (now : Nat) (collectionID bookID : Int) :
    Except DBError Unit × Store :=
  if db.collection_books.any
      (fun m => m.collection_id == collectionID && m.book_id == bookID) then
    (.error (.constraint
      "UNIQUE constraint failed: collection_books.collection_id, collection_books.book_id"),
      db)
  else if db.foreign_keys &&
      !(db.collections.any (fun r => r.id == collectionID) &&
        db.books.any (fun r => r.id == bookID)) then
    (.error (.constraint "FOREIGN KEY constraint failed"), db)
  else
    (.ok (), { db with collection_books :=
                        db.collection_books ++ [⟨collectionID, bookID, now⟩] })

/-- Go method `RemoveBookFromCollection`. -/
def RemoveBookFromCollection (db : Store) (collectionID bookID : Int) :
    Except DBError Unit × Store :=
  (.ok (), { db with collection_books := db.collection_books.filter
                      (fun m => !(m.collection_id == collectionID && m.book_id == bookID)) })

/-- Go method `IsBookInCollection`: `SELECT COUNT(*)` and `count > 0`. -/
def IsBookInCollection (db : Store) (collectionID bookID : Int) : Except DBError Bool :=
  let count := (db.collection_books.filter
    (fun m => m.collection_id == collectionID && m.book_id == bookID)).length
  .ok (decide (count > 0))

/-! ## strconv.Atoi and time.Parse -/

/-- ASCII decimal digit. -/
def isDigit (c : Char) : Bool :=
  decide ('0' ≤ c) && decide (c ≤ '9')

/-- Value of a decimal digit. -/
def digitVal (c : Char) : Nat :=
  c.toNat - '0'.toNat

/-- Outcome of `strconv.ParseUint(s, 10, 64)`. -/
inductive UintResult where
  /-- The error `strconv.ErrSyntax`. -/
  | syntaxErr
  /-- The error `strconv.ErrRange`. -/
  | rangeErr
  /-- A value below `2^64`. -/
  | val (n : Nat)
deriving DecidableEq, Repr

/-- The digit loop of `strconv.ParseUint` in base 10 with 64 bits. -/
def parseUintLoop : List Char → Nat → UintResult
  | [], n => .val n
  | c :: cs, n =>
    if !isDigit c then .syntaxErr
    else if n ≥ (2 ^ 64 - 1) / 10 + 1 then .rangeErr
    else
      let n1 := n * 10 + digitVal c
      if n1 ≥ 2 ^ 64 then .rangeErr else parseUintLoop cs n1

/-- Go function `strconv.ParseUint(s, 10, 64)` on the characters of `s`. -/
def ParseUint (s : List Char) : UintResult :=
  if s.isEmpty then .syntaxErr else parseUintLoop s 0

/-- Go function `strconv.Atoi` on a 64-bit platform: the value returned and
whether the error is non-nil.  A syntax error returns 0, a range error the
nearest bound of `int64`.  This is the `ParseInt(s, 10, 0)` path; the fast
path taken for fewer than 19 bytes returns the same value and error. -/
def Atoi (s : String) : Int × Bool :=
  match s.data with
  | [] => (0, true)
  | c :: cs =>
    let neg := c == '-'
    let digits := if c == '+' || c == '-' then cs else c :: cs
    match ParseUint digits with
    | .syntaxErr => (0, true)
    | .rangeErr => if neg then (-(2 ^ 63 : Int), true) else ((2 ^ 63 : Int) - 1, true)
    | .val un =>
      if !neg && un ≥ 2 ^ 63 then ((2 ^ 63 : Int) - 1, true)
      else if neg && un > 2 ^ 63 then (-(2 ^ 63 : Int), true)
      else (if neg then -(un : Int) else (un : Int), false)

/-- Go function `isLeap` of package `time`. -/
def isLeap (year : Nat) : Bool :=
  year % 4 == 0 && (year % 100 != 0 || year % 400 == 0)

/-- Go function `daysIn` of package `time`. -/
def daysIn (month year : Nat) : Nat :=
  if month == 2 && isLeap year then 29
  else
    match month with
    | 1 => 31 | 2 => 28 | 3 => 31 | 4 => 30 | 5 => 31 | 6 => 30
    | 7 => 31 | 8 => 31 | 9 => 30 | 10 => 31 | 11 => 30 | 12 => 31
    | _ => 0

/-- Calendar date produced by `time.Parse` under the layout `2006-01-02`
(midnight UTC). -/
structure Date where
  year : Nat
  month : Nat
  day : Nat
deriving DecidableEq, Repr

/-- Go method `Time.IsZero`: the instant January 1, year 1, 00:00:00 UTC. -/
def Date.IsZero (d : Date) : Bool :=
  d.year == 1 && d.month == 1 && d.day == 1

/-- Go function `time.Parse("2006-01-02", value)`: a four-digit year, `-`, a
two-digit month in 1..12, `-`, a two-digit day that exists in that month, and
no further text.  The value `none` stands for a non-nil error. -/
def parseDate (value : String) : Option Date :=
  match value.data with
  | [y1, y2, y3, y4, s1, m1, m2, s2, d1, d2] =>
    if isDigit y1 && isDigit y2 && isDigit y3 && isDigit y4 && s1 == '-' &&
        isDigit m1 && isDigit m2 && s2 == '-' && isDigit d1 && isDigit d2 then
      let year := digitVal y1 * 1000 + digitVal y2 * 100 + digitVal y3 * 10 + digitVal y4
      let month := digitVal m1 * 10 + digitVal m2
      let day := digitVal d1 * 10 + digitVal d2
      if month == 0 || 12 < month then none
      else if day < 1 || day > daysIn month year then none
      else some ⟨year, month, day⟩
    else none
  | _ => none

/-! ## internal/api/handlers.go -/

/-- What a handler wrote after the status line. -/
inductive Body where
  /-- Plain text written by `http.Error`. -/
  | error (msg : String)
  /-- A `models.Book` written by the JSON encoder. -/
  | book (b : Book)
  /-- A slice of `models.Book` written by the JSON encoder. -/
  | books (bs : List Book)
  /-- A `models.Collection` written by the JSON encoder. -/
  | collection (c : Collection)
  /-- A slice of `models.Collection` written by the JSON encoder. -/
  | collections (cs : List Collection)
  /-- Nothing was written. -/
  | empty
deriving DecidableEq, Repr

/-- Status code and body of an HTTP response. -/
structure Response where
  status : Nat
  body : Body
deriving DecidableEq, Repr

/-- Constant `http.StatusOK`. -/
def StatusOK : Nat := 200
/-- Constant `http.StatusCreated`. -/
def StatusCreated : Nat := 201
/-- Constant `http.StatusNoContent`. -/
def StatusNoContent : Nat := 204
/-- Constant `http.StatusBadRequest`. -/
def StatusBadRequest : Nat := 400
/-- Constant `http.StatusNotFound`. -/
def StatusNotFound : Nat := 404
/-- Constant `http.StatusConflict`. -/
def StatusConflict : Nat := 409
/-- Constant `http.StatusInternalServerError`. -/
def StatusInternalServerError : Nat := 500

/-- The two validation checks shared by `createBook` and `updateBook`: the
response of the first failing check, or `none` when the book passes. -/
def validateBook (book : Book) : Option Response :=
  if book.Title == "" || book.Author == "" || book.PublishedDate == "" then
    some ⟨StatusBadRequest, .error "Title, author, and published date are required"⟩
  else
    match parseDate book.PublishedDate with
    | none =>
      some ⟨StatusBadRequest, .error "Invalid published date format, expected YYYY-MM-DD"⟩
    | some result =>
      if result.IsZero then
        some ⟨StatusBadRequest, .error "Invalid published date format, expected YYYY-MM-DD"⟩
      else none

/-- Handler `getBooks`: the four query parameters of the URL. -/
def getBooks (db : Store) (author genre from_ to_ : String) : Response :=
  match GetBooks db author genre from_ to_ with
  | .error err => ⟨StatusInternalServerError, .error err.Error⟩
  | .ok books => ⟨StatusOK, .books books⟩

/-- Handler `getBook`; `idVar` is the path variable `id`. -/
def getBook (db : Store) (idVar : String) : Response :=
  let id := (Atoi idVar).1
  match GetBook db id with
  | .error err => ⟨StatusNotFound, .error err.Error⟩
  | .ok book => ⟨StatusOK, .book book⟩

/-- Handler `createBook`; `decoded` is the outcome of decoding the request
body into a `models.Book`. -/
def createBook (db : Store) (now : Nat) (decoded : Except String Book) :
    Response × Store :=
  match decoded with
  | .error err => (⟨StatusBadRequest, .error err⟩, db)
  | .ok book =>
    match validateBook book with
    | some resp => (resp, db)
    | none =>
      match CreateBook db now book with
      | (.error err, db1) => (⟨StatusInternalServerError, .error err.Error⟩, db1)
      | (.ok id, db1) => (⟨StatusCreated, .book { book with ID := id }⟩, db1)

/-- Handler `updateBook`; `idVar` is the path variable `id` and `decoded` the
`models.Book` left by the decoder, whose error the handler ignores. -/
def updateBook (db : Store) (now : Nat) (idVar : String) (decoded : Book) :
    Response × Store :=
  let id := (Atoi idVar).1
  let book := { decoded with ID := id }
  match validateBook book with
  | some resp => (resp, db)
  | none =>
    match UpdateBook db now book with
    | (.error err, db1) => (⟨StatusInternalServerError, .error err.Error⟩, db1)
    | (.ok _, db1) => (⟨StatusOK, .book book⟩, db1)

/-- Handler `deleteBook`; `idVar` is the path variable `id`. -/
def deleteBook (db : Store) (idVar : String) : Response × Store :=
  let id := (Atoi idVar).1
  match DeleteBook db id with
  | (.error err, db1) => (⟨StatusInternalServerError, .error err.Error⟩, db1)
  | (.ok _, db1) => (⟨StatusNoContent, .empty⟩, db1)

/-- Handler `getCollections`. -/
def getCollections (db : Store) : Response :=
  match GetCollections db with
  | .error err => ⟨StatusInternalServerError, .error err.Error⟩
  | .ok collections => ⟨StatusOK, .collections collections⟩

/-- Handler `getCollection`; `idVar` is the path variable `id`. -/
def getCollection (db : Store) (idVar : String) : Response :=
  let id := (Atoi idVar).1
  match GetCollection db id with
  | .error err => ⟨StatusNotFound, .error err.Error⟩
  | .ok collection => ⟨StatusOK, .collection collection⟩

/-- Handler `createCollection`; `decoded` is the `models.Collection` left by
the decoder, whose error the handler ignores. -/
def createCollection (db : Store) (now : Nat) (decoded : Collection) : Response × Store :=
  if decoded.Name == "" then
    (⟨StatusBadRequest, .error "Collection name is required"⟩, db)
  else
    match CreateCollection db now decoded with
    | (.error err, db1) => (⟨StatusInternalServerError, .error err.Error⟩, db1)
    | (.ok id, db1) => (⟨StatusCreated, .collection { decoded with ID := id }⟩, db1)

/-- Handler `updateCollection`; `idVar` is the path variable `id`. -/
def updateCollection (db : Store) (idVar : String) (decoded : Collection) :
    Response × Store :=
  let id := (Atoi idVar).1
  let collection := { decoded with ID := id }
  if collection.Name == "" then
    (⟨StatusBadRequest, .error "Collection name is required"⟩, db)
  else
    match UpdateCollection db collection with
    | (.error err, db1) => (⟨StatusInternalServerError, .error err.Error⟩, db1)
    | (.ok _, db1) => (⟨StatusOK, .collection collection⟩, db1)

/-- Handler `deleteCollection`; `idVar` is the path variable `id`. -/
def deleteCollection (db : Store) (idVar : String) : Response × Store :=
  let id := (Atoi idVar).1
  match DeleteCollection db id with
  | (.error err, db1) => (⟨StatusInternalServerError, .error err.Error⟩, db1)
  | (.ok _, db1) => (⟨StatusNoContent, .empty⟩, db1)

/-- Handler `addBookToCollection`; `idVar` and `bookIdVar` are the path
variables `id` and `bookId`. -/
def addBookToCollection (db : Store) (now : Nat) (idVar bookIdVar : String) :
    Response × Store :=
  match Atoi idVar with
  | (_, true) => (⟨StatusBadRequest, .error "invalid collection ID"⟩, db)
  | (collectionID, false) =>
    match Atoi bookIdVar with
    | (_, true) => (⟨StatusBadRequest, .error "invalid book ID"⟩, db)
    | (bookID, false) =>
      match IsBookInCollection db collectionID bookID with
      | .error err =>
        (⟨StatusInternalServerError,
          .error ("error checking book in collection: " ++ err.Error)⟩, db)
      | .ok inCollection =>
        if inCollection then
          (⟨StatusConflict, .error "book is already in the collection"⟩, db)
        else
          match AddBookToCollection db now collectionID bookID with
          | (.error err, db1) => (⟨StatusInternalServerError, .error err.Error⟩, db1)
          | (.ok _, db1) => (⟨StatusNoContent, .empty⟩, db1)

/-- Handler `removeBookFromCollection`; `idVar` and `bookIdVar` are the path
variables `id` and `bookId`. -/
def removeBookFromCollection (db : Store) (idVar bookIdVar : String) : Response × Store :=
  match Atoi idVar with
  | (_, true) => (⟨StatusBadRequest, .error "invalid collection ID"⟩, db)
  | (collectionID, false) =>
    match Atoi bookIdVar with
    | (_, true) => (⟨StatusBadRequest, .error "invalid book ID"⟩, db)
    | (bookID, false) =>
      match IsBookInCollection db collectionID bookID with
      | .error err =>
        (⟨StatusInternalServerError,
          .error ("error checking book in collection: " ++ err.Error)⟩, db)
      | .ok inCollection =>
        if !inCollection then
          (⟨StatusNotFound, .error "book is not in the collection"⟩, db)
        else
          match RemoveBookFromCollection db collectionID bookID with
          | (.error err, db1) => (⟨StatusInternalServerError, .error err.Error⟩, db1)
          | (.ok _, db1) => (⟨StatusNoContent, .empty⟩, db1)

/-! ## Opening the database -/

/-- Go function `InitDB`: `sql.Open("sqlite3", dataSourceName)` and `Ping` on
the database `file`.  The data source names of the repository
(`./bookman.db` in `cmd/server/main.go`, `:memory:` in the tests) set no
`_foreign_keys` parameter and no statement of the repository executes
`PRAGMA foreign_keys = ON`, so the connection keeps the default of SQLite:
foreign keys are not enforced. -/
def InitDB (file : Store) : Store :=
  { file with foreign_keys := false }

/-! ## Traces of repository operations -/

/-- A repository operation that writes to the database. -/
inductive Op where
  | createBook (b : Book)
  | updateBook (b : Book)
  | deleteBook (id : Int)
  | createCollection (c : Collection)
  | updateCollection (c : Collection)
  | deleteCollection (id : Int)
  | addBookToCollection (collectionID bookID : Int)
  | removeBookFromCollection (collectionID bookID : Int)
deriving DecidableEq, Repr

/-- The store after one operation executed at clock reading `now`. -/
def Op.apply (db : Store) (now : Nat) : Op → Store
  | .createBook b => (CreateBook db now b).2
  | .updateBook b => (UpdateBook db now b).2
  | .deleteBook id => (DeleteBook db id).2
  | .createCollection c => (CreateCollection db now c).2
  | .updateCollection c => (UpdateCollection db c).2
  | .deleteCollection id => (DeleteCollection db id).2
  | .addBookToCollection c b => (AddBookToCollection db now c b).2
  | .removeBookFromCollection c b => (RemoveBookFromCollection db c b).2

/-- The store and the last clock reading after a sequence of operations, each
paired with the clock reading at which it executes.  The clock never runs
backwards: the run stops (`none`) at an operation whose reading is earlier
than the preceding one. -/
def run (db : Store) (clock : Nat) : List (Nat × Op) → Option (Store × Nat)
  | [] => some (db, clock)
  | (now, op) :: rest =>
    if clock ≤ now then run (op.apply db now) now rest else none

/-- The store after a sequence of operations executed at arbitrary clock
readings. -/
def applyAll (db : Store) (trace : List (Nat × Op)) : Store :=
  trace.foldl (fun d step => step.2.apply d step.1) db

/-! ## Sample data and invariants -/

/-- The store used by the concrete checks below: two books, the first one in
collection 1. -/
def sampleStore : Store :=
  { books := [⟨1, "Dune", "Herbert", "1965-08-01", "1st", "", "SciFi", 10, 10⟩,
              ⟨2, "Emma", "Austen", "1815-12-23", "", "", "Novel", 20, 25⟩],
    collections := [⟨1, "Classics", 5, 5⟩],
    collection_books := [⟨1, 1, 30⟩],
    books_seq := 2,
    collections_seq := 1,
    foreign_keys := false }

/-- A run from the empty store: a book and a collection created at clock
reading 3, the book updated at 7 and added to the collection at 9. -/
def sampleTrace : List (Nat × Op) :=
  [(3, .createBook ⟨0, "Dune", "Herbert", "1965-08-01", "", "", "", 0, 0⟩),
   (3, .createCollection ⟨0, "Classics", []⟩),
   (7, .updateBook ⟨1, "Dune", "F. Herbert", "1965-08-01", "", "", "", 0, 0⟩),
   (9, .addBookToCollection 1 1)]

/-- The store at the end of `sampleTrace`. -/
def sampleTraceEnd : Store :=
  { books := [⟨1, "Dune", "F. Herbert", "1965-08-01", "", "", "", 3, 7⟩],
    collections := [⟨1, "Classics", 3, 3⟩],
    collection_books := [⟨1, 1, 9⟩],
    books_seq := 1,
    collections_seq := 1,
    foreign_keys := false }

/-- Timestamps of the stored books are consistent with the clock: no book was
updated before it was created, and none was created after the last clock
reading. -/
def TimeInv (db : Store) (clock : Nat) : Prop :=
  ∀ r ∈ db.books, r.created_at ≤ r.updated_at ∧ r.created_at ≤ clock

/-- The book of the end-to-end scenario as the caller passes it. -/
def duneBook : Book :=
  ⟨0, "Dune", "Herbert", "1965-08-01", "", "", "", 0, 0⟩

/-- The collection of the end-to-end scenario as the caller passes it. -/
def sciFiCollection : Collection :=
  ⟨0, "Sci-Fi", []⟩

/-- Spec wording (real calendar date): the number of days of month `m` of year
`y` in the Gregorian calendar; a year is a leap year when it is divisible by
400, or by 4 and not by 100. -/
def specMonthLength (y m : Nat) : Nat :=
  if m = 2 then (if y % 400 = 0 ∨ (y % 4 = 0 ∧ y % 100 ≠ 0) then 29 else 28)
  else if m = 4 ∨ m = 6 ∨ m = 9 ∨ m = 11 then 30
  else 31

/-- Spec wording: the number written by a sequence of decimal digits. -/
def specDecimal (ds : List Char) : Nat :=
  ds.foldl (fun n c => 10 * n + (c.toNat - 48)) 0

/-- Spec wording (`validateBookFields`): the text matches the pattern
`YYYY-MM-DD` (four digits, a hyphen, two digits, a hyphen, two digits) and
denotes a real calendar date (a month from 1 to 12 and a day from 1 to the
length of that month). -/
def specCalendarDate (s : String) : Bool :=
  match s.data with
  | [y1, y2, y3, y4, h1, m1, m2, h2, d1, d2] =>
    [y1, y2, y3, y4, m1, m2, d1, d2].all Char.isDigit && h1 == '-' && h2 == '-' &&
      decide (1 ≤ specDecimal [m1, m2]) && decide (specDecimal [m1, m2] ≤ 12) &&
      decide (1 ≤ specDecimal [d1, d2]) &&
      decide (specDecimal [d1, d2] ≤
        specMonthLength (specDecimal [y1, y2, y3, y4]) (specDecimal [m1, m2]))
  | _ => false

/-- The primary keys of the schema hold in a store: no two rows of `books`
share an id, no two rows of `collections` share an id, and no two rows of
`collection_books` share the pair (collection_id, book_id). -/
def KeysUnique (db : Store) : Prop :=
  (db.books.map (fun r => r.id)).Nodup ∧
  (db.collections.map (fun r => r.id)).Nodup ∧
  (db.collection_books.map (fun m => (m.collection_id, m.book_id))).Nodup

/-- Chronological order of calendar dates, `a` not after `b`: an earlier year,
or the same year and an earlier month, or the same year and month and a day
that is not later. -/
def Date.notAfter (a b : Date) : Bool :=
  decide (a.year < b.year ∨
    (a.year = b.year ∧ (a.month < b.month ∨ (a.month = b.month ∧ a.day ≤ b.day))))

/-! ## cmd/cli -/

/-- An `error` value that reaches a subcommand of the CLI. -/
inductive CliError where
  /-- The error returned by `strconv.Atoi` for the text `input`. -/
  | atoi (input : String)
  /-- The error made by `fmt.Errorf` in `parseBookFlags`. -/
  | flags (msg : String)
  /-- An error returned by a method of the API client. -/
  | client (msg : String)
deriving DecidableEq, Repr

/-- One call that writes to standard output. -/
inductive Printed where
  /-- The call `fmt.Println(text)`. -/
  | line (text : String)
  /-- The call `fmt.Println(label, err)`. -/
  | labelled (label : String) (err : CliError)
  /-- The call `fmt.Println(err)`. -/
  | err (err : CliError)
  /-- The call `printBooksTable(books)`. -/
  | booksTable (books : List Book)
  /-- The call `printCollectionsTable(collections)`. -/
  | collectionsTable (collections : List Collection)
  /-- The call `printCollectionDetails(collection)`. -/
  | collectionDetails (collection : Collection)
deriving DecidableEq, Repr

/-- What a run of the CLI shows: the calls that printed, and the exit status
of the process. -/
structure Outcome where
  printed : List Printed
  exit : Nat
deriving DecidableEq, Repr

/-- The methods of `client.Client` that the subcommands call, each with the
value and error it returns for given arguments. -/
structure Client where
  GetBooks : String → String → String → String → Except CliError (List Book)
  GetBook : Int → Except CliError Book
  CreateBook : Book → Except CliError Book
  UpdateBook : Book → Except CliError Unit
  DeleteBook : Int → Except CliError Unit
  GetCollections : Except CliError (List Collection)
  GetCollection : Int → Except CliError Collection
  CreateCollection : Collection → Except CliError Collection
  UpdateCollection : Collection → Except CliError Unit
  DeleteCollection : Int → Except CliError Unit
  AddBookToCollection : Int → Int → Except CliError Unit
  RemoveBookFromCollection : Int → Int → Except CliError Unit

/-- Go function `handleErr` on a non-nil error: print it after `Error:` and
leave with `os.Exit(1)`. -/
def handleErr (err : CliError) : Outcome :=
  ⟨[.labelled "Error:" err], 1⟩

/-- A `Run` function that returns: the process ends with status 0. -/
def returned (printed : List Printed) : Outcome :=
  ⟨printed, 0⟩

/-- Go function `parseBookFlags` on the values of the six flags. -/
def parseBookFlags (title author published edition description genre : String) :
    Except CliError Book :=
  if title == "" || author == "" || published == "" then
    .error (.flags "title, author, and published are mandatory fields")
  else
    .ok ⟨0, title, author, published, edition, description, genre, 0, 0⟩

/-- Subcommand `book add`. -/
def bookAddCmd (bookman : Client)
    (title author published edition description genre : String) : Outcome :=
  match parseBookFlags title author published edition description genre with
  | .error err => handleErr err
  | .ok book =>
    match bookman.CreateBook book with
    | .error err => handleErr err
    | .ok _ => returned [.line "Book added successfully"]

/-- Subcommand `book list`. -/
def bookListCmd (bookman : Client) (author genre from_ to_ : String) : Outcome :=
  match bookman.GetBooks author genre from_ to_ with
  | .error err => handleErr err
  | .ok books => returned [.booksTable books]

/-- Subcommand `book get`. -/
def bookGetCmd (bookman : Client) (id : String) : Outcome :=
  match Atoi id with
  | (_, true) => returned [.labelled "Invalid ID format:" (.atoi id)]
  | (bookID, false) =>
    match bookman.GetBook bookID with
    | .error err => handleErr err
    | .ok book => returned [.booksTable [book]]

/-- Subcommand `book update`. -/
def bookUpdateCmd (bookman : Client)
    (id title author published edition description genre : String) : Outcome :=
  match Atoi id with
  | (_, true) => returned [.labelled "Invalid ID format:" (.atoi id)]
  | (bookID, false) =>
    match parseBookFlags title author published edition description genre with
    | .error err => returned [.err err]
    | .ok book =>
      match bookman.UpdateBook { book with ID := bookID } with
      | .error err => handleErr err
      | .ok _ => returned [.line "Book updated successfully"]

/-- Subcommand `book delete`. -/
def bookDeleteCmd (bookman : Client) (id : String) : Outcome :=
  match Atoi id with
  | (_, true) => returned [.labelled "Invalid ID format:" (.atoi id)]
  | (bookID, false) =>
    match bookman.DeleteBook bookID with
    | .error err => handleErr err
    | .ok _ => returned [.line "Book deleted successfully"]

/-- Subcommand `collection create`. -/
def collectionCreateCmd (bookman : Client) (name : String) : Outcome :=
  match bookman.CreateCollection ⟨0, name, []⟩ with
  | .error err => handleErr err
  | .ok createdCollection => returned [.collectionDetails createdCollection]

/-- Subcommand `collection list`. -/
def collectionListCmd (bookman : Client) : Outcome :=
  match bookman.GetCollections with
  | .error err => handleErr err
  | .ok collections => returned [.collectionsTable collections]

/-- Subcommand `collection get`. -/
def collectionGetCmd (bookman : Client) (id : String) : Outcome :=
  match Atoi id with
  | (_, true) => handleErr (.atoi id)
  | (collectionID, false) =>
    match bookman.GetCollection collectionID with
    | .error err => handleErr err
    | .ok collection => returned [.collectionDetails collection]

/-- Subcommand `collection update`. -/
def collectionUpdateCmd (bookman : Client) (id name : String) : Outcome :=
  match Atoi id with
  | (_, true) => handleErr (.atoi id)
  | (collectionID, false) =>
    match bookman.UpdateCollection ⟨collectionID, name, []⟩ with
    | .error err => handleErr err
    | .ok _ => returned [.line "Collection updated successfully"]

/-- Subcommand `collection delete`. -/
def collectionDeleteCmd (bookman : Client) (id : String) : Outcome :=
  match Atoi id with
  | (_, true) => handleErr (.atoi id)
  | (collectionID, false) =>
    match bookman.DeleteCollection collectionID with
    | .error err => handleErr err
    | .ok _ => returned [.line "Collection deleted successfully"]

/-- Subcommand `collection add-book`. -/
def collectionAddBookCmd (bookman : Client) (collectionID bookID : String) : Outcome :=
  match Atoi collectionID with
  | (_, true) => handleErr (.atoi collectionID)
  | (colID, false) =>
    match Atoi bookID with
    | (_, true) => handleErr (.atoi bookID)
    | (bkID, false) =>
      match bookman.AddBookToCollection colID bkID with
      | .error err => handleErr err
      | .ok _ => returned [.line "Book added to collection successfully"]

/-- Subcommand `collection remove-book`. -/
def collectionRemoveBookCmd (bookman : Client) (collectionID bookID : String) : Outcome :=
  match Atoi collectionID with
  | (_, true) => handleErr (.atoi collectionID)
  | (colID, false) =>
    match Atoi bookID with
    | (_, true) => handleErr (.atoi bookID)
    | (bkID, false) =>
      match bookman.RemoveBookFromCollection colID bkID with
      | .error err => handleErr err
      | .ok _ => returned [.line "Book removed from collection successfully"]

/-- The `sqlite_sequence` entry of `books` after at most `n` operations: it is
not below the id of any stored book, not negative and not above `n`. -/
def SeqInv (db : Store) (n : Nat) : Prop :=
  (∀ r ∈ db.books, r.id ≤ db.books_seq) ∧ 0 ≤ db.books_seq ∧ db.books_seq ≤ (n : Int)

/-- A store whose table `books` holds the largest row id. -/
def fullStore : Store :=
  { books := [⟨9223372036854775807, "Dune", "Herbert", "1965-08-01", "", "", "", 10, 10⟩],
    collections := [],
    collection_books := [],
    books_seq := 9223372036854775807,
    collections_seq := 0,
    foreign_keys := false }

/-! ## Auxiliary facts -/

theorem textLt_iff_lex (a b : List Char) :
    textLt a b = true ↔ List.Lex (fun x y => x < y) a b := by
  induction a generalizing b with
  | nil =>
    cases b with
    | nil => simp [textLt]
    | cons b bs => simpa [textLt] using List.Lex.nil
  | cons a as ih =>
    cases b with
    | nil => simp [textLt]
    | cons b bs =>
      simp only [textLt]
      constructor
      · intro h
        split_ifs at h with h1 h2
        · exact List.Lex.rel h1
        · have hab : a = b := le_antisymm (not_lt.1 h2) (not_lt.1 h1)
          subst hab
          exact List.Lex.cons ((ih bs).1 h)
      · intro h
        cases h with
        | rel h1 => simp [h1]
        | cons h3 => simp [(ih _).2 h3]

/-- The comparison used for `published_date` is the order of strings. -/
theorem textLe_iff (a b : String) : textLe a b = true ↔ a ≤ b := by
  unfold textLe
  rw [Bool.not_eq_true', ← Bool.not_eq_true, textLt_iff_lex, ← not_lt,
    String.lt_iff_toList_lt]
  rfl

/-- The `WHERE` clause built by `GetBooks` holds on a row exactly when every
non-empty argument is satisfied by the row. -/
theorem query_all_iff (author genre from_ to_ : String) (r : BookRow) :
    (GetBooksQuery author genre from_ to_).all (fun c => c.holds r) = true ↔
      ((author = "" ∨ r.author = author) ∧ (genre = "" ∨ r.genre = genre) ∧
        (from_ = "" ∨ from_ ≤ r.published_date) ∧ (to_ = "" ∨ r.published_date ≤ to_)) := by
  unfold GetBooksQuery
  by_cases ha : author = "" <;> by_cases hg : genre = "" <;>
    by_cases hf : from_ = "" <;> by_cases ht : to_ = "" <;>
    simp [ha, hg, hf, ht, Cond.holds, textLe_iff]

/-! ## Listing books with filters -/

/-- The result of `GetBooks` as a filter of the scanned table. -/
theorem GetBooks_eq_filter (db : Store) (a g f t : String) :
    GetBooks db a g f t =
      .ok ((db.books.map scanBook).filter (fun b => decide
        ((a = "" ∨ b.Author = a) ∧ (g = "" ∨ b.Genre = g) ∧
          (f = "" ∨ f ≤ b.PublishedDate) ∧ (t = "" ∨ b.PublishedDate ≤ t)))) := by
  unfold GetBooks
  simp only [List.filter_map]
  congr 2
  apply List.filter_congr
  intro r _
  rw [Bool.eq_iff_iff, query_all_iff]
  simp [scanBook]

/-- Claim C1: `GetBooks author genre from to` succeeds and returns exactly the
stored books, in table order, that satisfy every non-empty filter (author equal,
genre equal, published date at least `from` and at most `to`, both inclusive);
with four empty filters it returns every stored book, and when no stored book
matches it returns the empty sequence and no error. -/
theorem GetBooks_returns_matching (db : Store) (author genre from_ to_ : String) :
    GetBooks db author genre from_ to_ =
        .ok ((db.books.map scanBook).filter (fun b => decide
          ((author = "" ∨ b.Author = author) ∧ (genre = "" ∨ b.Genre = genre) ∧
            (from_ = "" ∨ from_ ≤ b.PublishedDate) ∧ (to_ = "" ∨ b.PublishedDate ≤ to_))))
      ∧ GetBooks db "" "" "" "" = .ok (db.books.map scanBook)
      ∧ ((∀ b ∈ db.books.map scanBook,
            ¬ ((author = "" ∨ b.Author = author) ∧ (genre = "" ∨ b.Genre = genre) ∧
              (from_ = "" ∨ from_ ≤ b.PublishedDate) ∧ (to_ = "" ∨ b.PublishedDate ≤ to_))) →
          GetBooks db author genre from_ to_ = .ok []) := by
  refine ⟨GetBooks_eq_filter db _ _ _ _, ?_, ?_⟩
  · rw [GetBooks_eq_filter]
    simp
  · intro h
    rw [GetBooks_eq_filter, List.filter_eq_nil_iff.2]
    intro b hb
    simpa using h b hb

/-- The third part of `GetBooks_returns_matching` on `sampleStore`: no book by
an unknown author. -/
theorem GetBooks_returns_matching_witness :
    GetBooks sampleStore "Nobody" "" "" "" = .ok [] :=
  (GetBooks_returns_matching sampleStore "Nobody" "" "" "").2.2 (by decide)

/-- Claim C2: the books returned for an author filter `A` together with a genre
filter `G` are exactly the books returned for `A` alone that are also returned
for `G` alone. -/
theorem GetBooks_author_genre_inter (db : Store) (A G : String) :
    ∃ both byAuthor byGenre : List Book,
      GetBooks db A G "" "" = .ok both ∧
      GetBooks db A "" "" "" = .ok byAuthor ∧
      GetBooks db "" G "" "" = .ok byGenre ∧
      (∀ b : Book, b ∈ both ↔ b ∈ byAuthor ∧ b ∈ byGenre) ∧
      both = byAuthor.filter (fun b => decide (b ∈ byGenre)) := by
  refine ⟨_, _, _, GetBooks_eq_filter db A G "" "", GetBooks_eq_filter db A "" "" "",
    GetBooks_eq_filter db "" G "" "", ?_, ?_⟩
  · intro b
    simp only [List.mem_filter, decide_eq_true_eq, true_or, and_true, true_and]
    tauto
  · rw [List.filter_filter]
    apply List.filter_congr
    intro b hb
    simp only [List.mem_filter, decide_eq_true_eq, true_or, and_true, true_and, hb,
      Bool.decide_and, Bool.decide_or, Bool.and_comm]
    simp [Bool.and_comm]

/-! ## Row ids -/

theorem foldl_max_ge (rest : List Int) (i : Int) :
    i ≤ rest.foldl max i ∧ ∀ x ∈ rest, x ≤ rest.foldl max i := by
  induction rest generalizing i with
  | nil => simp
  | cons y ys ih =>
    simp only [List.foldl_cons, List.mem_cons, forall_eq_or_imp]
    have h := ih (max i y)
    exact ⟨le_trans (le_max_left i y) h.1, le_trans (le_max_right i y) h.1, h.2⟩

/-- The id chosen for a new row is larger than every id of the table. -/
theorem lt_nextRowid (ids : List Int) (seq : Int) : ∀ x ∈ ids, x < nextRowid ids seq := by
  intro x hx
  unfold nextRowid
  cases ids with
  | nil => simp at hx
  | cons i rest =>
    have hmax : x ≤ maxId i rest := by
      rcases List.mem_cons.1 hx with h | h
      · exact h ▸ (foldl_max_ge rest i).1
      · exact (foldl_max_ge rest i).2 x h
    simp only
    split_ifs <;> omega

/-- No stored book has the id that `CreateBook` assigns. -/
theorem CreateBook_id_fresh (db : Store) :
    ∀ r ∈ db.books, r.id ≠ nextRowid (db.books.map (fun r => r.id)) db.books_seq := by
  intro r hr
  exact ne_of_lt (lt_nextRowid _ _ r.id (List.mem_map_of_mem _ hr))

/-- A table whose row ids and sequence entry are below the largest row id has
room for an insert. -/
theorem rowidFull_eq_false (ids : List Int) (seq : Int) (hids : ∀ x ∈ ids, x < maxRowid)
    (hseq : seq < maxRowid) : rowidFull ids seq = false := by
  unfold rowidFull
  rw [Bool.or_eq_false_iff, decide_eq_false_iff_not, List.any_eq_false]
  refine ⟨not_le.2 hseq, ?_⟩
  intro x hx
  rw [decide_eq_true_eq]
  exact not_le.2 (hids x hx)

/-- `CreateBook` on a table with no row id left. -/
theorem CreateBook_of_full (db : Store) (now : Nat) (b : Book)
    (h : rowidFull (db.books.map (fun r => r.id)) db.books_seq = true) :
    CreateBook db now b = (.error .full, db) := by
  simp only [CreateBook, h, if_true]

/-- `CreateBook` on a table with room. -/
theorem CreateBook_of_room (db : Store) (now : Nat) (b : Book)
    (h : rowidFull (db.books.map (fun r => r.id)) db.books_seq = false) :
    CreateBook db now b =
      (.ok (nextRowid (db.books.map (fun r => r.id)) db.books_seq),
        { db with
          books := db.books ++ [⟨nextRowid (db.books.map (fun r => r.id)) db.books_seq,
            b.Title, b.Author, b.PublishedDate, b.Edition, b.Description, b.Genre, now, now⟩],
          books_seq := nextRowid (db.books.map (fun r => r.id)) db.books_seq }) := by
  simp only [CreateBook, h, Bool.false_eq_true, if_false]

/-- A `CreateBook` that returns an id found room and returns the next row id. -/
theorem CreateBook_ok (db : Store) (now : Nat) (b : Book) (id : Int)
    (h : (CreateBook db now b).1 = .ok id) :
    rowidFull (db.books.map (fun r => r.id)) db.books_seq = false ∧
      id = nextRowid (db.books.map (fun r => r.id)) db.books_seq := by
  cases hfull : rowidFull (db.books.map (fun r => r.id)) db.books_seq with
  | true =>
    rw [CreateBook_of_full db now b hfull] at h
    exact absurd h (by simp)
  | false =>
    rw [CreateBook_of_room db now b hfull] at h
    exact ⟨rfl, (Except.ok.inj h).symm⟩

/-- `CreateCollection` on a table with no row id left. -/
theorem CreateCollection_of_full (db : Store) (now : Nat) (c : Collection)
    (h : rowidFull (db.collections.map (fun r => r.id)) db.collections_seq = true) :
    CreateCollection db now c = (.error .full, db) := by
  simp only [CreateCollection, h, if_true]

/-- `CreateCollection` on a table with room. -/
theorem CreateCollection_of_room (db : Store) (now : Nat) (c : Collection)
    (h : rowidFull (db.collections.map (fun r => r.id)) db.collections_seq = false) :
    CreateCollection db now c =
      (.ok (nextRowid (db.collections.map (fun r => r.id)) db.collections_seq),
        { db with
          collections := db.collections ++
            [⟨nextRowid (db.collections.map (fun r => r.id)) db.collections_seq,
              c.Name, now, now⟩],
          collections_seq := nextRowid (db.collections.map (fun r => r.id)) db.collections_seq }) := by
  simp only [CreateCollection, h, Bool.false_eq_true, if_false]

/-- A lookup by an id that no row of the table has finds nothing. -/
theorem find_id_none (rows : List BookRow) (id : Int) (h : ∀ r ∈ rows, r.id ≠ id) :
    rows.find? (fun r => r.id == id) = none := by
  rw [List.find?_eq_none]
  intro r hr
  simpa using h r hr

/-- A lookup by an id that some row has returns a row with that id. -/
theorem find_id_some (rows : List BookRow) (id : Int) (h : ∃ r ∈ rows, r.id = id) :
    ∃ r ∈ rows, r.id = id ∧ rows.find? (fun r => r.id == id) = some r := by
  cases hf : rows.find? (fun r => r.id == id) with
  | none =>
    rw [List.find?_eq_none] at hf
    obtain ⟨r, hr, hid⟩ := h
    exact absurd (by simpa using hid) (hf r hr)
  | some r =>
    exact ⟨r, List.mem_of_find?_eq_some hf, by simpa using List.find?_some hf, rfl⟩

/-- Looking up `b.ID` after `UPDATE ... WHERE id = b.ID` finds the updated
version of the row found before. -/
theorem find_map_setBook (rows : List BookRow) (now : Nat) (b : Book) :
    (rows.map (setBook now b)).find? (fun r => r.id == b.ID) =
      (rows.find? (fun r => r.id == b.ID)).map (setBook now b) := by
  induction rows with
  | nil => rfl
  | cons r rs ih =>
    by_cases h : r.id = b.ID
    · simp [List.find?_cons, setBook, h]
    · simp [List.find?_cons, setBook, h, ih]

/-- An `UPDATE` whose `WHERE` clause matches no row leaves the table as it is. -/
theorem map_setBook_of_absent (rows : List BookRow) (now : Nat) (b : Book)
    (h : ∀ r ∈ rows, r.id ≠ b.ID) : rows.map (setBook now b) = rows := by
  induction rows with
  | nil => rfl
  | cons r rs ih =>
    have hr : r.id ≠ b.ID := h r (List.mem_cons_self _ _)
    simp [setBook, hr, ih (fun x hx => h x (List.mem_cons_of_mem _ hx))]

/-! ## Creating and reading a book -/

/-- The row inserted by a `CreateBook` that found room, read back by its id. -/
theorem GetBook_of_CreateBook (db : Store) (now : Nat) (b : Book)
    (h : rowidFull (db.books.map (fun r => r.id)) db.books_seq = false) :
    GetBook (CreateBook db now b).2 (nextRowid (db.books.map (fun r => r.id)) db.books_seq) =
      .ok ⟨nextRowid (db.books.map (fun r => r.id)) db.books_seq, b.Title, b.Author,
        b.PublishedDate, b.Edition, b.Description, b.Genre, now, now⟩ := by
  rw [CreateBook_of_room db now b h]
  simp only [GetBook, List.find?_append, find_id_none _ _ (CreateBook_id_fresh db)]
  simp [scanBook]

/-- Claim C3: when `CreateBook b` returns an id, `GetBook` of that id on the
resulting store succeeds with a book that has this id, the title, author,
published date, edition, description and genre of `b`, and a creation time equal
to its update time (the clock reading of the insert).  `CreateBook` does return
an id on every store whose book row ids and sequence entry are below the
largest row id. -/
theorem CreateBook_then_GetBook (db : Store) (now : Nat) (b : Book) :
    (∀ id : Int, (CreateBook db now b).1 = .ok id →
      ∃ got : Book,
        GetBook (CreateBook db now b).2 id = .ok got ∧
        got.ID = id ∧ got.Title = b.Title ∧ got.Author = b.Author ∧
        got.PublishedDate = b.PublishedDate ∧ got.Edition = b.Edition ∧
        got.Description = b.Description ∧ got.Genre = b.Genre ∧
        got.CreatedAt = got.UpdatedAt ∧ got.CreatedAt = now) ∧
    ((∀ r ∈ db.books, r.id < maxRowid) → db.books_seq < maxRowid →
      ∃ id : Int, (CreateBook db now b).1 = .ok id) := by
  constructor
  · intro id hid
    obtain ⟨hroom, rfl⟩ := CreateBook_ok db now b id hid
    exact ⟨_, GetBook_of_CreateBook db now b hroom, rfl, rfl, rfl, rfl, rfl, rfl, rfl, rfl, rfl⟩
  · intro hids hseq
    have hroom : rowidFull (db.books.map (fun r => r.id)) db.books_seq = false :=
      rowidFull_eq_false _ _ (fun x hx => by
        obtain ⟨r, hr, rfl⟩ := List.mem_map.1 hx
        exact hids r hr) hseq
    exact ⟨_, by rw [CreateBook_of_room db now b hroom]⟩

/-- Claim C3 on `sampleStore`: the book created at clock reading 40 gets id 3
and is read back with both times equal to 40. -/
theorem CreateBook_then_GetBook_witness :
    ∃ got : Book,
      GetBook (CreateBook sampleStore 40 duneBook).2 3 = .ok got ∧
      got.ID = 3 ∧ got.Title = duneBook.Title ∧ got.Author = duneBook.Author ∧
      got.PublishedDate = duneBook.PublishedDate ∧ got.Edition = duneBook.Edition ∧
      got.Description = duneBook.Description ∧ got.Genre = duneBook.Genre ∧
      got.CreatedAt = got.UpdatedAt ∧ got.CreatedAt = 40 :=
  (CreateBook_then_GetBook sampleStore 40 duneBook).1 3 rfl

/-! ## Updating a book -/

/-- The book read by `GetBook b.ID` after `UpdateBook b`, from the book read
before: the six fields of `b`, the old creation time, the clock reading. -/
theorem GetBook_after_UpdateBook (db : Store) (now : Nat) (b old : Book)
    (h : GetBook db b.ID = .ok old) :
    GetBook (UpdateBook db now b).2 b.ID =
      .ok ⟨b.ID, b.Title, b.Author, b.PublishedDate, b.Edition, b.Description, b.Genre,
        old.CreatedAt, now⟩ := by
  unfold GetBook at h ⊢
  simp only [UpdateBook, find_map_setBook]
  cases hf : db.books.find? (fun r => r.id == b.ID) with
  | none => simp [hf] at h
  | some r =>
    have hid : r.id = b.ID := by simpa using List.find?_some hf
    simp only [hf, Except.ok.injEq] at h
    subst h
    simp [setBook, hid, scanBook]

/-- Claim C4: in a store that holds a book with id `b.ID`, `UpdateBook b`
returns no error, and afterwards that book has the title, author, published
date, edition, description and genre of `b`, an update time equal to the clock
reading of the call whatever the fields were before, and the creation time it
had before the call. -/
theorem UpdateBook_replaces_fields (db : Store) (now : Nat) (b old : Book)
    (h : GetBook db b.ID = .ok old) :
    (UpdateBook db now b).1 = .ok () ∧
    ∃ got : Book, GetBook (UpdateBook db now b).2 b.ID = .ok got ∧
      got.ID = b.ID ∧ got.Title = b.Title ∧ got.Author = b.Author ∧
      got.PublishedDate = b.PublishedDate ∧ got.Edition = b.Edition ∧
      got.Description = b.Description ∧ got.Genre = b.Genre ∧
      got.UpdatedAt = now ∧ got.CreatedAt = old.CreatedAt :=
  ⟨rfl, _, GetBook_after_UpdateBook db now b old h,
    rfl, rfl, rfl, rfl, rfl, rfl, rfl, rfl, rfl⟩

/-- Claim C4 on `sampleStore`: a call that repeats the stored fields of book 1
at clock reading 40 still moves the update time to 40. -/
theorem UpdateBook_replaces_fields_witness :
    (UpdateBook sampleStore 40 ⟨1, "Dune", "Herbert", "1965-08-01", "1st", "", "SciFi", 0, 0⟩).1
        = .ok () ∧
    ∃ got : Book,
      GetBook (UpdateBook sampleStore 40
        ⟨1, "Dune", "Herbert", "1965-08-01", "1st", "", "SciFi", 0, 0⟩).2 1 = .ok got ∧
      got.ID = 1 ∧ got.Title = "Dune" ∧ got.Author = "Herbert" ∧
      got.PublishedDate = "1965-08-01" ∧ got.Edition = "1st" ∧
      got.Description = "" ∧ got.Genre = "SciFi" ∧
      got.UpdatedAt = 40 ∧ got.CreatedAt = 10 :=
  UpdateBook_replaces_fields sampleStore 40
    ⟨1, "Dune", "Herbert", "1965-08-01", "1st", "", "SciFi", 0, 0⟩
    ⟨1, "Dune", "Herbert", "1965-08-01", "1st", "", "SciFi", 10, 10⟩ rfl

/-- Claim C5 as stated fails: book 1 of `sampleStore` was last written at clock
reading 10, and an `UpdateBook` executed while the clock still reads 10 (the
clock has not run backwards) leaves its update time at 10, which is not
strictly later. -/
theorem UpdateBook_same_second_counterexample :
    ∃ old got : Book,
      GetBook sampleStore 1 = .ok old ∧ old.UpdatedAt ≤ 10 ∧
      GetBook (UpdateBook sampleStore 10
        ⟨1, "Dune Messiah", "Herbert", "1969-10-15", "", "", "SciFi", 0, 0⟩).2 1 = .ok got ∧
      ¬ (old.UpdatedAt < got.UpdatedAt) :=
  ⟨⟨1, "Dune", "Herbert", "1965-08-01", "1st", "", "SciFi", 10, 10⟩,
    ⟨1, "Dune Messiah", "Herbert", "1969-10-15", "", "", "SciFi", 10, 10⟩,
    rfl, by decide, rfl, by decide⟩

/-- Claim C5, amended: for an existing book and a clock that has not run
backwards since the book was last written, `UpdateBook` sets the update time
to the clock reading, so the update time never decreases; it increases strictly
exactly when the clock reading (in whole seconds) is later than the previous
update time; the creation time is unchanged. -/
theorem UpdateBook_updatedAt_advances (db : Store) (now : Nat) (b old : Book)
    (h : GetBook db b.ID = .ok old) (hclock : old.UpdatedAt ≤ now) :
    ∃ got : Book, GetBook (UpdateBook db now b).2 b.ID = .ok got ∧
      got.UpdatedAt = now ∧ old.UpdatedAt ≤ got.UpdatedAt ∧
      (old.UpdatedAt < got.UpdatedAt ↔ old.UpdatedAt < now) ∧
      got.CreatedAt = old.CreatedAt :=
  ⟨_, GetBook_after_UpdateBook db now b old h, rfl, hclock, Iff.rfl, rfl⟩

/-- Claim C5, amended, on `sampleStore`: at clock reading 11 the update time of
book 1 moves from 10 to 11. -/
theorem UpdateBook_updatedAt_advances_witness :
    ∃ got : Book,
      GetBook (UpdateBook sampleStore 11
        ⟨1, "Dune", "Herbert", "1965-08-01", "1st", "", "SciFi", 0, 0⟩).2 1 = .ok got ∧
      got.UpdatedAt = 11 ∧ 10 ≤ got.UpdatedAt ∧
      (10 < got.UpdatedAt ↔ 10 < 11) ∧ got.CreatedAt = 10 :=
  UpdateBook_updatedAt_advances sampleStore 11
    ⟨1, "Dune", "Herbert", "1965-08-01", "1st", "", "SciFi", 0, 0⟩
    ⟨1, "Dune", "Herbert", "1965-08-01", "1st", "", "SciFi", 10, 10⟩ rfl (by decide)

/-! ## Timestamps along a run -/

/-- One operation executed at a clock reading that is not earlier than the last
one keeps the timestamps consistent. -/
theorem TimeInv_apply (db : Store) (clock now : Nat) (op : Op)
    (hinv : TimeInv db clock) (hle : clock ≤ now) : TimeInv (op.apply db now) now := by
  have hold : ∀ r ∈ db.books, r.created_at ≤ r.updated_at ∧ r.created_at ≤ now :=
    fun r hr => ⟨(hinv r hr).1, le_trans (hinv r hr).2 hle⟩
  cases op with
  | createBook b =>
    intro r hr
    simp only [Op.apply] at hr
    cases hfull : rowidFull (db.books.map (fun r => r.id)) db.books_seq with
    | true =>
      rw [CreateBook_of_full db now b hfull] at hr
      exact hold r hr
    | false =>
      rw [CreateBook_of_room db now b hfull] at hr
      simp only [List.mem_append, List.mem_singleton] at hr
      rcases hr with hr | hr
      · exact hold r hr
      · subst hr
        exact ⟨le_refl _, le_refl _⟩
  | updateBook b =>
    intro r hr
    simp only [Op.apply, UpdateBook, List.mem_map] at hr
    obtain ⟨r0, hr0, rfl⟩ := hr
    unfold setBook
    split_ifs
    · exact ⟨(hold r0 hr0).2, (hold r0 hr0).2⟩
    · exact hold r0 hr0
  | deleteBook id =>
    intro r hr
    simp only [Op.apply, DeleteBook, List.mem_filter] at hr
    exact hold r hr.1
  | createCollection c =>
    intro r hr
    simp only [Op.apply, CreateCollection] at hr
    split_ifs at hr <;> exact hold r hr
  | updateCollection c => exact hold
  | deleteCollection id => exact hold
  | addBookToCollection c b =>
    intro r hr
    simp only [Op.apply, AddBookToCollection] at hr
    split_ifs at hr <;> exact hold r hr
  | removeBookFromCollection c b => exact hold

/-- A run keeps the timestamps consistent. -/
theorem TimeInv_run (trace : List (Nat × Op)) :
    ∀ (db : Store) (clock : Nat) (db1 : Store) (clock1 : Nat),
      TimeInv db clock → run db clock trace = some (db1, clock1) → TimeInv db1 clock1 := by
  induction trace with
  | nil =>
    intro db clock db1 clock1 hinv h
    simp only [run, Option.some.injEq, Prod.mk.injEq] at h
    rw [← h.1, ← h.2]
    exact hinv
  | cons step rest ih =>
    intro db clock db1 clock1 hinv h
    obtain ⟨now, op⟩ := step
    simp only [run] at h
    split_ifs at h with hle
    exact ih _ _ _ _ (TimeInv_apply db clock now op hinv hle) h

/-- The fold that finds the largest id stays below a bound of all ids. -/
theorem foldl_max_le (rest : List Int) (i B : Int) (hi : i ≤ B) (h : ∀ x ∈ rest, x ≤ B) :
    rest.foldl max i ≤ B := by
  induction rest generalizing i with
  | nil => exact hi
  | cons y ys ih =>
    simp only [List.foldl_cons]
    exact ih (max i y) (max_le hi (h y (List.mem_cons_self _ _)))
      (fun x hx => h x (List.mem_cons_of_mem _ hx))

/-- When the sequence entry bounds the ids of the table, the next row id is the
entry plus one. -/
theorem nextRowid_of_le (ids : List Int) (seq : Int) (h : ∀ x ∈ ids, x ≤ seq)
    (hseq : 0 ≤ seq) : nextRowid ids seq = seq + 1 := by
  unfold nextRowid
  cases ids with
  | nil =>
    simp only
    split_ifs <;> omega
  | cons i rest =>
    have hmax : maxId i rest ≤ seq :=
      foldl_max_le rest i seq (h i (List.mem_cons_self _ _))
        (fun x hx => h x (List.mem_cons_of_mem _ hx))
    simp only
    split_ifs <;> omega

/-- One operation raises the sequence entry of `books` by at most one. -/
theorem SeqInv_apply (db : Store) (n now : Nat) (op : Op) (h : SeqInv db n) :
    SeqInv (op.apply db now) (n + 1) := by
  obtain ⟨hids, h0, hn⟩ := h
  have hkeep : SeqInv db (n + 1) := ⟨hids, h0, by push_cast; omega⟩
  cases op with
  | createBook b =>
    simp only [Op.apply]
    cases hfull : rowidFull (db.books.map (fun r => r.id)) db.books_seq with
    | true =>
      rw [CreateBook_of_full db now b hfull]
      exact hkeep
    | false =>
      rw [CreateBook_of_room db now b hfull]
      have hnext : nextRowid (db.books.map (fun r => r.id)) db.books_seq = db.books_seq + 1 :=
        nextRowid_of_le _ _ (fun x hx => by
          obtain ⟨r, hr, rfl⟩ := List.mem_map.1 hx
          exact hids r hr) h0
      refine ⟨?_, ?_, ?_⟩
      · intro r hr
        simp only [List.mem_append, List.mem_singleton] at hr
        rcases hr with hr | hr
        · have := hids r hr
          simp only [hnext]
          omega
        · subst hr
          exact le_refl _
      · simp only [hnext]
        omega
      · simp only [hnext]
        push_cast
        omega
  | updateBook b =>
    refine ⟨?_, hkeep.2.1, hkeep.2.2⟩
    intro r hr
    simp only [Op.apply, UpdateBook, List.mem_map] at hr
    obtain ⟨r0, hr0, rfl⟩ := hr
    have hid : (setBook now b r0).id = r0.id := by
      unfold setBook
      split_ifs <;> rfl
    rw [hid]
    exact hids r0 hr0
  | deleteBook id =>
    refine ⟨?_, hkeep.2.1, hkeep.2.2⟩
    intro r hr
    simp only [Op.apply, DeleteBook, List.mem_filter] at hr
    exact hids r hr.1
  | createCollection c =>
    simp only [Op.apply, CreateCollection]
    split_ifs <;> exact hkeep
  | updateCollection c => exact hkeep
  | deleteCollection id => exact hkeep
  | addBookToCollection c b =>
    simp only [Op.apply, AddBookToCollection]
    split_ifs <;> exact hkeep
  | removeBookFromCollection c b => exact hkeep

/-- After a run the sequence entry of `books` is at most the number of
operations of the run more than before. -/
theorem SeqInv_run (trace : List (Nat × Op)) :
    ∀ (db : Store) (clock : Nat) (n : Nat) (db1 : Store) (clock1 : Nat),
      SeqInv db n → run db clock trace = some (db1, clock1) →
      SeqInv db1 (n + trace.length) := by
  induction trace with
  | nil =>
    intro db clock n db1 clock1 hinv h
    simp only [run, Option.some.injEq, Prod.mk.injEq] at h
    rw [← h.1]
    exact hinv
  | cons step rest ih =>
    intro db clock n db1 clock1 hinv h
    obtain ⟨now, op⟩ := step
    simp only [run] at h
    split_ifs at h with hle
    have := ih _ _ _ _ _ (SeqInv_apply db n now op hinv) h
    rw [List.length_cons]
    rw [show n + (rest.length + 1) = n + 1 + rest.length by omega]
    exact this

/-- Claim C6: in every store reached from the empty store by a sequence of
repository operations (creating, updating and deleting books and collections,
adding and removing memberships) whose clock readings never decrease, every
stored book has an update time that is not earlier than its creation time; a
book created next in such a store is read back with its creation time equal to
its update time; and that creation does return an id after every run of fewer
operations than there are row ids. -/
theorem updatedAt_ge_createdAt (fk : Bool) (trace : List (Nat × Op)) (db : Store)
    (clock : Nat) (h : run (emptyStore fk) 0 trace = some (db, clock)) :
    (∀ r ∈ db.books, r.created_at ≤ r.updated_at) ∧
    (∀ bk ∈ (GetBooks db "" "" "" "").toOption.getD [], bk.CreatedAt ≤ bk.UpdatedAt) ∧
    (∀ (now : Nat) (b : Book) (id : Int), (CreateBook db now b).1 = .ok id →
      ∃ got : Book,
        GetBook (CreateBook db now b).2 id = .ok got ∧ got.CreatedAt = got.UpdatedAt) ∧
    ((trace.length : Int) < maxRowid →
      ∀ (now : Nat) (b : Book), ∃ id : Int, ∃ got : Book,
        (CreateBook db now b).1 = .ok id ∧
        GetBook (CreateBook db now b).2 id = .ok got ∧ got.CreatedAt = got.UpdatedAt) := by
  have hinv : TimeInv db clock :=
    TimeInv_run trace _ _ _ _ (fun r hr => by simp [emptyStore] at hr) h
  have hseq : SeqInv db (0 + trace.length) :=
    SeqInv_run trace _ _ 0 _ _
      ⟨fun r hr => by simp [emptyStore] at hr, by simp [emptyStore], by simp [emptyStore]⟩ h
  refine ⟨fun r hr => (hinv r hr).1, ?_, ?_, ?_⟩
  · intro bk hbk
    simp only [GetBooks, GetBooksQuery, Except.toOption, Option.getD_some, List.mem_map,
      List.mem_filter] at hbk
    obtain ⟨r, hr, rfl⟩ := hbk
    exact (hinv r hr.1).1
  · intro now b id hid
    obtain ⟨hroom, rfl⟩ := CreateBook_ok db now b id hid
    exact ⟨_, GetBook_of_CreateBook db now b hroom, rfl⟩
  · intro hlen now b
    obtain ⟨hids, _, hn⟩ := hseq
    rw [Nat.zero_add] at hn
    have hroom : rowidFull (db.books.map (fun r => r.id)) db.books_seq = false :=
      rowidFull_eq_false _ _ (fun x hx => by
        obtain ⟨r, hr, rfl⟩ := List.mem_map.1 hx
        have := hids r hr
        omega) (by omega)
    refine ⟨_, _, ?_, GetBook_of_CreateBook db now b hroom, rfl⟩
    rw [CreateBook_of_room db now b hroom]

/-- Claim C6 on a run of four operations at clock readings 3, 3, 7 and 9. -/
theorem updatedAt_ge_createdAt_witness :
    run (emptyStore false) 0 sampleTrace = some (sampleTraceEnd, 9) ∧
    ∀ r ∈ sampleTraceEnd.books, r.created_at ≤ r.updated_at :=
  ⟨rfl, (updatedAt_ge_createdAt false sampleTrace sampleTraceEnd 9 rfl).1⟩

/-! ## Validation -/

/-- A book rejected by the validation checks is answered with status 400. -/
theorem validateBook_status (book : Book) (resp : Response)
    (h : validateBook book = some resp) : resp.status = StatusBadRequest := by
  unfold validateBook at h
  split_ifs at h
  · cases h
    rfl
  · split at h
    · cases h
      rfl
    · split_ifs at h
      cases h
      rfl

/-! ## Updating a book that is not stored -/

/-- Claim C7 as stated fails: no book of `sampleStore` has id 7, yet
`UpdateBook` with id 7 returns no error and the PUT handler answers 200, not
404. -/
theorem UpdateBook_absent_counterexample :
    (∀ r ∈ sampleStore.books, r.id ≠ 7) ∧
    (UpdateBook sampleStore 40
      ⟨7, "Persuasion", "Austen", "1817-12-20", "", "", "Novel", 0, 0⟩).1 = .ok () ∧
    (updateBook sampleStore 40 "7"
      ⟨0, "Persuasion", "Austen", "1817-12-20", "", "", "Novel", 0, 0⟩).1.status = 200 ∧
    (updateBook sampleStore 40 "7"
      ⟨0, "Persuasion", "Austen", "1817-12-20", "", "", "Novel", 0, 0⟩).1.status ≠
        StatusNotFound :=
  ⟨by decide, rfl, by decide, by decide⟩

/-- Claim C7, amended: when the id of `b` matches no stored book, `UpdateBook`
returns no error and leaves the store unchanged; the PUT handler for such an id
leaves the store unchanged as well, never answers 404, answers 200 with the
book of the request when the body passes validation, and answers 400 with the
message of the failed check when it does not. -/
theorem UpdateBook_absent_is_noop (db : Store) (now : Nat) (b : Book)
    (h : ∀ r ∈ db.books, r.id ≠ b.ID) :
    UpdateBook db now b = (.ok (), db) ∧
    ∀ (idVar : String) (decoded : Book), (Atoi idVar).1 = b.ID →
      (updateBook db now idVar decoded).2 = db ∧
      (updateBook db now idVar decoded).1.status ≠ StatusNotFound ∧
      (validateBook { decoded with ID := b.ID } = none →
        (updateBook db now idVar decoded).1 =
          ⟨StatusOK, .book { decoded with ID := b.ID }⟩) ∧
      (validateBook { decoded with ID := b.ID } ≠ none →
        (updateBook db now idVar decoded).1.status = StatusBadRequest ∧
        validateBook { decoded with ID := b.ID } =
          some (updateBook db now idVar decoded).1) := by
  have hnoop : ∀ b1 : Book, b1.ID = b.ID → UpdateBook db now b1 = (.ok (), db) := by
    intro b1 hb1
    unfold UpdateBook
    rw [map_setBook_of_absent db.books now b1 (fun r hr => hb1 ▸ h r hr)]
  refine ⟨hnoop b rfl, ?_⟩
  intro idVar decoded hid
  have hcall := hnoop { decoded with ID := b.ID } rfl
  cases hv : validateBook { decoded with ID := b.ID } with
  | some resp =>
    have hs : resp.status = StatusBadRequest := validateBook_status _ _ hv
    have hresp : updateBook db now idVar decoded = (resp, db) := by
      simp only [updateBook, hid, hv]
    rw [hresp]
    refine ⟨rfl, ?_, fun hnone => by simp at hnone, fun _ => ⟨hs, rfl⟩⟩
    show resp.status ≠ StatusNotFound
    rw [hs]
    decide
  | none =>
    have hresp : updateBook db now idVar decoded =
        (⟨StatusOK, .book { decoded with ID := b.ID }⟩, db) := by
      simp only [updateBook, hid, hv, hcall]
    rw [hresp]
    refine ⟨rfl, ?_, fun _ => rfl, fun hne => absurd rfl hne⟩
    show StatusOK ≠ StatusNotFound
    decide

/-- Claim C7, amended, on `sampleStore` and the absent id 7: the repository
call is a no-operation, and a PUT whose body has no author is answered 400. -/
theorem UpdateBook_absent_is_noop_witness :
    UpdateBook sampleStore 40
        ⟨7, "Persuasion", "Austen", "1817-12-20", "", "", "Novel", 0, 0⟩ =
      (.ok (), sampleStore) ∧
    (updateBook sampleStore 40 "7"
      ⟨0, "Persuasion", "", "1817-12-20", "", "", "Novel", 0, 0⟩).1.status = StatusBadRequest :=
  ⟨(UpdateBook_absent_is_noop sampleStore 40
      ⟨7, "Persuasion", "Austen", "1817-12-20", "", "", "Novel", 0, 0⟩ (by decide)).1,
    (((UpdateBook_absent_is_noop sampleStore 40
      ⟨7, "Persuasion", "Austen", "1817-12-20", "", "", "Novel", 0, 0⟩ (by decide)).2 "7"
      ⟨0, "Persuasion", "", "1817-12-20", "", "", "Novel", 0, 0⟩ rfl).2.2.2 (by decide)).1⟩

/-! ## Reading one book -/

/-- Claim C8: `GetBook id` returns a stored book with that id when one exists
and fails (with `sql.ErrNoRows`) when no row has the id; the GET handler, whose
path variable parses to `id`, answers 200 with that book in the first case and
404 in the second. -/
theorem GetBook_found_or_fails (db : Store) (id : Int) (idVar : String)
    (hvar : (Atoi idVar).1 = id) :
    ((∃ r ∈ db.books, r.id = id) →
      ∃ r ∈ db.books, r.id = id ∧ GetBook db id = .ok (scanBook r) ∧
        getBook db idVar = ⟨StatusOK, .book (scanBook r)⟩) ∧
    ((∀ r ∈ db.books, r.id ≠ id) →
      GetBook db id = .error .ErrNoRows ∧
        getBook db idVar = ⟨StatusNotFound, .error DBError.ErrNoRows.Error⟩) := by
  constructor
  · intro hex
    obtain ⟨r, hr, hid, hfind⟩ := find_id_some db.books id hex
    refine ⟨r, hr, hid, ?_, ?_⟩
    · simp [GetBook, hfind]
    · simp [getBook, hvar, GetBook, hfind]
  · intro hno
    have hfind := find_id_none db.books id hno
    constructor
    · simp [GetBook, hfind]
    · simp [getBook, hvar, GetBook, hfind]

/-- Claim C8 on `sampleStore`: book 2 is stored, so `GET /api/v1/books/2`
answers 200 with it. -/
theorem GetBook_found_or_fails_witness :
    ∃ r ∈ sampleStore.books, r.id = 2 ∧ GetBook sampleStore 2 = .ok (scanBook r) ∧
      getBook sampleStore "2" = ⟨StatusOK, .book (scanBook r)⟩ :=
  (GetBook_found_or_fails sampleStore 2 "2" (by decide)).1
    ⟨⟨2, "Emma", "Austen", "1815-12-23", "", "", "Novel", 20, 25⟩, by decide, rfl⟩

/-! ## What CreateBook and UpdateBook leave alone -/

/-- Claim C9 as stated fails: the table `books` of `fullStore` holds the largest
row id, and `CreateBook` on it returns the error `database or disk is full`,
adds no row and leaves the store as it is. -/
theorem CreateBook_full_counterexample :
    (CreateBook fullStore 40 duneBook).1 = .error .full ∧
    DBError.full.Error = "database or disk is full" ∧
    (CreateBook fullStore 40 duneBook).2 = fullStore ∧
    (CreateBook fullStore 40 duneBook).2.books.length = fullStore.books.length :=
  ⟨rfl, rfl, rfl, rfl⟩

/-- Claim C9, amended: on a store whose book row ids and sequence entry are
below the largest row id, `CreateBook` appends exactly one row to `books`; its
id is chosen by the storage engine (the same whatever book value and clock
reading are passed) and differs from the id of every book already stored; on an
empty fresh store the id is 1; the rows stored before, the collections and the
membership rows are unchanged. -/
theorem CreateBook_adds_one_row (db : Store) (now : Nat) (b : Book)
    (hids : ∀ r ∈ db.books, r.id < maxRowid) (hseq : db.books_seq < maxRowid) :
    ∃ id : Int, ∃ row : BookRow,
      (CreateBook db now b).1 = .ok id ∧
      (CreateBook db now b).2.books = db.books ++ [row] ∧ row.id = id ∧
      (∀ r ∈ db.books, r.id ≠ id) ∧
      (∀ (now2 : Nat) (b2 : Book), (CreateBook db now2 b2).1 = .ok id) ∧
      (CreateBook db now b).2.collections = db.collections ∧
      (CreateBook db now b).2.collection_books = db.collection_books ∧
      (∀ fk : Bool, (CreateBook (emptyStore fk) now b).1 = .ok 1) := by
  have hroom : rowidFull (db.books.map (fun r => r.id)) db.books_seq = false :=
    rowidFull_eq_false _ _ (fun x hx => by
      obtain ⟨r, hr, rfl⟩ := List.mem_map.1 hx
      exact hids r hr) hseq
  refine ⟨nextRowid (db.books.map (fun r : BookRow => r.id)) db.books_seq,
    ⟨nextRowid (db.books.map (fun r : BookRow => r.id)) db.books_seq, b.Title, b.Author,
      b.PublishedDate, b.Edition, b.Description, b.Genre, now, now⟩,
    ?_, ?_, rfl, CreateBook_id_fresh db, ?_, ?_, ?_, fun _ => rfl⟩
  · rw [CreateBook_of_room db now b hroom]
  · rw [CreateBook_of_room db now b hroom]
  · intro now2 b2
    rw [CreateBook_of_room db now2 b2 hroom]
  · rw [CreateBook_of_room db now b hroom]
  · rw [CreateBook_of_room db now b hroom]

/-- Claim C9, amended, on `sampleStore`: the new row gets id 3. -/
theorem CreateBook_adds_one_row_witness :
    ∃ id : Int, ∃ row : BookRow,
      (CreateBook sampleStore 40 duneBook).1 = .ok id ∧
      (CreateBook sampleStore 40 duneBook).2.books = sampleStore.books ++ [row] ∧
      row.id = id ∧
      (∀ r ∈ sampleStore.books, r.id ≠ id) ∧
      (∀ (now2 : Nat) (b2 : Book), (CreateBook sampleStore now2 b2).1 = .ok id) ∧
      (CreateBook sampleStore 40 duneBook).2.collections = sampleStore.collections ∧
      (CreateBook sampleStore 40 duneBook).2.collection_books =
        sampleStore.collection_books ∧
      (∀ fk : Bool, (CreateBook (emptyStore fk) 40 duneBook).1 = .ok 1) :=
  CreateBook_adds_one_row sampleStore 40 duneBook (by decide) (by decide)

/-- The `UPDATE` of `UpdateBook` never writes the column `id`. -/
theorem setBook_id (now : Nat) (b : Book) (r : BookRow) : (setBook now b r).id = r.id := by
  unfold setBook
  split_ifs <;> rfl

/-- The `UPDATE` of `UpdateBook` leaves a row with another id as it is. -/
theorem setBook_of_ne (now : Nat) (b : Book) (r : BookRow) (h : r.id ≠ b.ID) :
    setBook now b r = r := by
  simp [setBook, h]

/-- Claim C10: `UpdateBook b` leaves the sequence of book ids unchanged (none
altered, added or removed), leaves every book whose id differs from `b.ID`
unchanged, and leaves all collections and all membership rows unchanged. -/
theorem UpdateBook_frame (db : Store) (now : Nat) (b : Book) :
    (UpdateBook db now b).2.books.map (fun r => r.id) = db.books.map (fun r => r.id) ∧
    (UpdateBook db now b).2.books.filter (fun r => r.id != b.ID) =
      db.books.filter (fun r => r.id != b.ID) ∧
    (∀ id : Int, id ≠ b.ID → GetBook (UpdateBook db now b).2 id = GetBook db id) ∧
    (UpdateBook db now b).2.collections = db.collections ∧
    (UpdateBook db now b).2.collection_books = db.collection_books ∧
    (GetCollections (UpdateBook db now b).2 = GetCollections db) ∧
    (∀ c k : Int, IsBookInCollection (UpdateBook db now b).2 c k = IsBookInCollection db c k) := by
  refine ⟨?_, ?_, ?_, rfl, rfl, rfl, fun _ _ => rfl⟩
  · simp only [UpdateBook, List.map_map]
    apply List.map_congr_left
    intro r _
    exact setBook_id now b r
  · simp only [UpdateBook]
    induction db.books with
    | nil => rfl
    | cons r rs ih =>
      by_cases h : r.id = b.ID
      · simp [List.filter_cons, setBook_id, h, ih]
      · simp [List.filter_cons, setBook_id, setBook_of_ne now b r h, h, ih]
  · intro id hid
    simp only [UpdateBook, GetBook]
    have hfind : (db.books.map (setBook now b)).find? (fun r => r.id == id) =
        db.books.find? (fun r => r.id == id) := by
      induction db.books with
      | nil => rfl
      | cons r rs ih =>
        by_cases h : r.id = b.ID
        · have hne : ¬ r.id = id := fun h2 => hid (h2.symm.trans h)
          simp [List.find?_cons, setBook_id, hne, ih]
        · simp [List.find?_cons, setBook_of_ne now b r h, ih]
    rw [hfind]

/-! ## Deleting with foreign keys not enforced -/

/-- Claim C11 at a failing input: `sampleStore` opened through `InitDB` holds
book 1 as a member of collection 1; `DeleteBook 1` removes the book and keeps
the other book and the collection, but the membership row (1, 1) stays and
`IsBookInCollection 1 1` still returns true.  On every store opened through
`InitDB` the table `collection_books` is the same after `DeleteBook`. -/
theorem DeleteBook_keeps_membership_rows :
    GetBook (InitDB sampleStore) 1 =
      .ok ⟨1, "Dune", "Herbert", "1965-08-01", "1st", "", "SciFi", 10, 10⟩ ∧
    IsBookInCollection (InitDB sampleStore) 1 1 = .ok true ∧
    (DeleteBook (InitDB sampleStore) 1).1 = .ok () ∧
    GetBook (DeleteBook (InitDB sampleStore) 1).2 1 = .error .ErrNoRows ∧
    (DeleteBook (InitDB sampleStore) 1).2.books =
      [⟨2, "Emma", "Austen", "1815-12-23", "", "", "Novel", 20, 25⟩] ∧
    (DeleteBook (InitDB sampleStore) 1).2.collections = sampleStore.collections ∧
    (DeleteBook (InitDB sampleStore) 1).2.collection_books = [⟨1, 1, 30⟩] ∧
    IsBookInCollection (DeleteBook (InitDB sampleStore) 1).2 1 1 = .ok true ∧
    (∀ (file : Store) (id : Int),
      (DeleteBook (InitDB file) id).2.collection_books = file.collection_books) :=
  ⟨rfl, rfl, rfl, rfl, rfl, rfl, rfl, rfl, fun _ _ => rfl⟩

/-- Claim C12 at a failing input: in `sampleStore` opened through `InitDB`,
`DeleteCollection 1` removes the collection and keeps both books, but the
membership row (1, 1) stays and `IsBookInCollection 1 1` still returns true for
the previous member.  On every store opened through `InitDB` the table
`collection_books` is the same after `DeleteCollection`. -/
theorem DeleteCollection_keeps_membership_rows :
    IsBookInCollection (InitDB sampleStore) 1 1 = .ok true ∧
    (DeleteCollection (InitDB sampleStore) 1).1 = .ok () ∧
    GetCollection (DeleteCollection (InitDB sampleStore) 1).2 1 = .error .ErrNoRows ∧
    (DeleteCollection (InitDB sampleStore) 1).2.collections = [] ∧
    (DeleteCollection (InitDB sampleStore) 1).2.books = sampleStore.books ∧
    (DeleteCollection (InitDB sampleStore) 1).2.collection_books = [⟨1, 1, 30⟩] ∧
    IsBookInCollection (DeleteCollection (InitDB sampleStore) 1).2 1 1 = .ok true ∧
    (∀ (file : Store) (id : Int),
      (DeleteCollection (InitDB file) id).2.collection_books = file.collection_books) :=
  ⟨rfl, rfl, rfl, rfl, rfl, rfl, rfl, fun _ _ => rfl⟩

/-- Claim C15 at a failing input: the empty database opened through `InitDB`
has neither a collection 1 nor a book 1, yet `AddBookToCollection 1 1` returns
no error and inserts the membership row, and the POST handler answers 204.  On
every store opened through `InitDB` the outcome of `AddBookToCollection` depends
only on whether the pair is already present, not on the tables `collections`
and `books`. -/
theorem AddBookToCollection_without_parents :
    GetCollection (InitDB (emptyStore true)) 1 = .error .ErrNoRows ∧
    GetBook (InitDB (emptyStore true)) 1 = .error .ErrNoRows ∧
    (AddBookToCollection (InitDB (emptyStore true)) 50 1 1).1 = .ok () ∧
    (AddBookToCollection (InitDB (emptyStore true)) 50 1 1).2.collection_books =
      [⟨1, 1, 50⟩] ∧
    (addBookToCollection (InitDB (emptyStore true)) 50 "1" "1").1 =
      ⟨StatusNoContent, .empty⟩ ∧
    (addBookToCollection (InitDB (emptyStore true)) 50 "1" "1").2.collection_books =
      [⟨1, 1, 50⟩] ∧
    (∀ (file : Store) (now : Nat) (c b : Int),
      AddBookToCollection (InitDB file) now c b =
        if file.collection_books.any (fun m => m.collection_id == c && m.book_id == b) then
          (.error (.constraint
            "UNIQUE constraint failed: collection_books.collection_id, collection_books.book_id"),
            InitDB file)
        else
          (.ok (), { InitDB file with
                      collection_books := file.collection_books ++ [⟨c, b, now⟩] })) := by
  refine ⟨rfl, rfl, rfl, rfl, rfl, rfl, ?_⟩
  intro file now c b
  simp [AddBookToCollection, InitDB]

/-! ## Membership through the handlers -/

/-- The count of `IsBookInCollection` is positive exactly when some membership
row holds the pair. -/
theorem IsBookInCollection_eq_any (db : Store) (c b : Int) :
    IsBookInCollection db c b =
      .ok (db.collection_books.any (fun m => m.collection_id == c && m.book_id == b)) := by
  unfold IsBookInCollection
  simp only [gt_iff_lt, Except.ok.injEq]
  rw [Bool.eq_iff_iff]
  simp only [decide_eq_true_eq, List.length_pos, List.any_eq_true, ne_eq,
    List.filter_eq_nil_iff, not_forall, Classical.not_imp, Bool.not_eq_true, Bool.not_eq_false]
  constructor
  · rintro ⟨m, hm, h⟩
    exact ⟨m, hm, h⟩
  · rintro ⟨m, hm, h⟩
    exact ⟨m, hm, h⟩

/-- The POST handler on path variables that parse to `c` and `b`. -/
theorem addBookToCollection_eq (db : Store) (now : Nat) (cVar bVar : String) (c b : Int)
    (hc : Atoi cVar = (c, false)) (hb : Atoi bVar = (b, false)) :
    addBookToCollection db now cVar bVar =
      if db.collection_books.any (fun m => m.collection_id == c && m.book_id == b) then
        (⟨StatusConflict, .error "book is already in the collection"⟩, db)
      else
        match AddBookToCollection db now c b with
        | (.error err, db1) => (⟨StatusInternalServerError, .error err.Error⟩, db1)
        | (.ok _, db1) => (⟨StatusNoContent, .empty⟩, db1) := by
  simp only [addBookToCollection, hc, hb, IsBookInCollection_eq_any]

/-- The DELETE handler on path variables that parse to `c` and `b`. -/
theorem removeBookFromCollection_eq (db : Store) (cVar bVar : String) (c b : Int)
    (hc : Atoi cVar = (c, false)) (hb : Atoi bVar = (b, false)) :
    removeBookFromCollection db cVar bVar =
      if !db.collection_books.any (fun m => m.collection_id == c && m.book_id == b) then
        (⟨StatusNotFound, .error "book is not in the collection"⟩, db)
      else
        match RemoveBookFromCollection db c b with
        | (.error err, db1) => (⟨StatusInternalServerError, .error err.Error⟩, db1)
        | (.ok _, db1) => (⟨StatusNoContent, .empty⟩, db1) := by
  simp only [removeBookFromCollection, hc, hb, IsBookInCollection_eq_any]

/-- Claim C13: when a membership row for (c, b) is stored, the POST handler for
that pair answers 409 with the message of the conflict and leaves the store
unchanged; and when a POST for the pair has answered 204, the same POST on the
resulting store answers 409 and leaves that store unchanged. -/
theorem addBookToCollection_conflict (db : Store) (now now2 : Nat) (cVar bVar : String)
    (c b : Int) (hc : Atoi cVar = (c, false)) (hb : Atoi bVar = (b, false)) :
    ((∃ m ∈ db.collection_books, m.collection_id = c ∧ m.book_id = b) →
      addBookToCollection db now cVar bVar =
        (⟨StatusConflict, .error "book is already in the collection"⟩, db)) ∧
    ((addBookToCollection db now cVar bVar).1.status = StatusNoContent →
      addBookToCollection (addBookToCollection db now cVar bVar).2 now2 cVar bVar =
        (⟨StatusConflict, .error "book is already in the collection"⟩,
          (addBookToCollection db now cVar bVar).2)) := by
  constructor
  · rintro ⟨m, hm, h1, h2⟩
    have hany : db.collection_books.any
        (fun m => m.collection_id == c && m.book_id == b) = true := by
      rw [List.any_eq_true]
      exact ⟨m, hm, by simp [h1, h2]⟩
    rw [addBookToCollection_eq db now cVar bVar c b hc hb, if_pos hany]
  · intro hstatus
    rw [addBookToCollection_eq db now cVar bVar c b hc hb] at hstatus ⊢
    by_cases hany : db.collection_books.any
        (fun m => m.collection_id == c && m.book_id == b) = true
    · rw [if_pos hany] at hstatus
      simp [StatusConflict, StatusNoContent] at hstatus
    · rw [if_neg hany] at hstatus ⊢
      by_cases hfk : (db.foreign_keys &&
          !(db.collections.any (fun r => r.id == c) &&
            db.books.any (fun r => r.id == b))) = true
      · simp only [AddBookToCollection, if_neg hany, if_pos hfk] at hstatus
        simp [StatusInternalServerError, StatusNoContent] at hstatus
      · simp only [AddBookToCollection, if_neg hany, if_neg hfk]
        rw [addBookToCollection_eq _ now2 cVar bVar c b hc hb, if_pos]
        simp

/-- Claim C13 on `sampleStore`, where book 1 is a member of collection 1. -/
theorem addBookToCollection_conflict_witness :
    addBookToCollection sampleStore 40 "1" "1" =
      (⟨StatusConflict, .error "book is already in the collection"⟩, sampleStore) :=
  (addBookToCollection_conflict sampleStore 40 41 "1" "1" 1 1 rfl rfl).1
    ⟨⟨1, 1, 30⟩, by decide, rfl, rfl⟩

/-- Claim C14: when no membership row for (c, b) is stored, the DELETE handler
for that pair answers 404 and leaves the store unchanged. -/
theorem removeBookFromCollection_not_found (db : Store) (cVar bVar : String) (c b : Int)
    (hc : Atoi cVar = (c, false)) (hb : Atoi bVar = (b, false))
    (h : ∀ m ∈ db.collection_books, ¬ (m.collection_id = c ∧ m.book_id = b)) :
    removeBookFromCollection db cVar bVar =
      (⟨StatusNotFound, .error "book is not in the collection"⟩, db) := by
  have hany : db.collection_books.any
      (fun m => m.collection_id == c && m.book_id == b) = false := by
    rw [List.any_eq_false]
    intro m hm
    simpa using h m hm
  rw [removeBookFromCollection_eq db cVar bVar c b hc hb, hany]
  rfl

/-- Claim C14 on `sampleStore`, where book 2 is in no collection. -/
theorem removeBookFromCollection_not_found_witness :
    removeBookFromCollection sampleStore "1" "2" =
      (⟨StatusNotFound, .error "book is not in the collection"⟩, sampleStore) :=
  removeBookFromCollection_not_found sampleStore "1" "2" 1 2 rfl rfl (by decide)

/-! ## Primary keys along a run -/

/-- Appending a row whose key is new keeps the keys distinct. -/
theorem nodup_map_append_singleton {α β : Type} (f : α → β) (l : List α) (x : α)
    (h : (l.map f).Nodup) (hx : ∀ y ∈ l, f y ≠ f x) : ((l ++ [x]).map f).Nodup := by
  rw [List.map_append, List.nodup_append]
  refine ⟨h, by simp, ?_⟩
  intro k hk hk2
  simp only [List.map_cons, List.map_nil, List.mem_singleton] at hk2
  obtain ⟨y, hy, rfl⟩ := List.mem_map.1 hk
  exact hx y hy hk2

/-- Deleting rows keeps the keys distinct. -/
theorem nodup_map_filter {α β : Type} (f : α → β) (p : α → Bool) (l : List α)
    (h : (l.map f).Nodup) : ((l.filter p).map f).Nodup :=
  h.sublist ((List.filter_sublist l).map f)

/-- One operation keeps the primary keys. -/
theorem KeysUnique_apply (db : Store) (now : Nat) (op : Op) (h : KeysUnique db) :
    KeysUnique (op.apply db now) := by
  obtain ⟨hb, hc, hm⟩ := h
  cases op with
  | createBook b =>
    simp only [Op.apply]
    cases hfull : rowidFull (db.books.map (fun r => r.id)) db.books_seq with
    | true =>
      rw [CreateBook_of_full db now b hfull]
      exact ⟨hb, hc, hm⟩
    | false =>
      rw [CreateBook_of_room db now b hfull]
      refine ⟨?_, hc, hm⟩
      exact nodup_map_append_singleton (fun r : BookRow => r.id) db.books _ hb
        (fun y hy => CreateBook_id_fresh db y hy)
  | updateBook b =>
    refine ⟨?_, hc, hm⟩
    simp only [Op.apply, UpdateBook, List.map_map]
    have hid : db.books.map ((fun r : BookRow => r.id) ∘ setBook now b) =
        db.books.map (fun r => r.id) :=
      List.map_congr_left (fun r _ => by
        show (setBook now b r).id = r.id
        unfold setBook
        split_ifs <;> rfl)
    rw [hid]
    exact hb
  | deleteBook id =>
    refine ⟨nodup_map_filter _ _ _ hb, hc, ?_⟩
    simp only [Op.apply, DeleteBook]
    split_ifs
    · exact nodup_map_filter _ _ _ hm
    · exact hm
  | createCollection c =>
    simp only [Op.apply]
    cases hfull : rowidFull (db.collections.map (fun r => r.id)) db.collections_seq with
    | true =>
      rw [CreateCollection_of_full db now c hfull]
      exact ⟨hb, hc, hm⟩
    | false =>
      rw [CreateCollection_of_room db now c hfull]
      refine ⟨hb, ?_, hm⟩
      exact nodup_map_append_singleton (fun r : CollectionRow => r.id) db.collections _ hc
        (fun y hy => ne_of_lt (lt_nextRowid _ _ y.id (List.mem_map_of_mem _ hy)))
  | updateCollection c =>
    refine ⟨hb, ?_, hm⟩
    simp only [Op.apply, UpdateCollection, List.map_map]
    have hid : db.collections.map ((fun r : CollectionRow => r.id) ∘
        (fun r => if r.id == c.ID then { r with name := c.Name } else r)) =
        db.collections.map (fun r => r.id) :=
      List.map_congr_left (fun r _ => by
        simp only [Function.comp]
        split_ifs <;> rfl)
    rw [hid]
    exact hc
  | deleteCollection id =>
    refine ⟨hb, nodup_map_filter _ _ _ hc, ?_⟩
    simp only [Op.apply, DeleteCollection]
    split_ifs
    · exact nodup_map_filter _ _ _ hm
    · exact hm
  | addBookToCollection c b =>
    simp only [Op.apply, AddBookToCollection]
    split_ifs with hany hfk
    · exact ⟨hb, hc, hm⟩
    · exact ⟨hb, hc, hm⟩
    · refine ⟨hb, hc, ?_⟩
      apply nodup_map_append_singleton _ _ _ hm
      intro y hy hkey
      apply hany
      rw [List.any_eq_true]
      simp only [Prod.mk.injEq] at hkey
      exact ⟨y, hy, by simp [hkey.1, hkey.2]⟩
  | removeBookFromCollection c b =>
    exact ⟨hb, hc, nodup_map_filter _ _ _ hm⟩

/-- Every store reached from an empty one keeps the primary keys. -/
theorem KeysUnique_applyAll (trace : List (Nat × Op)) :
    ∀ db : Store, KeysUnique db → KeysUnique (applyAll db trace) := by
  induction trace with
  | nil => exact fun db h => h
  | cons step rest ih =>
    intro db h
    exact ih _ (KeysUnique_apply db step.1 step.2 h)

/-- With distinct keys at most one membership row holds a given pair. -/
theorem filter_pair_length_le_one (l : List CollectionBookRow)
    (h : (l.map (fun m => (m.collection_id, m.book_id))).Nodup) (c b : Int) :
    (l.filter (fun m => m.collection_id == c && m.book_id == b)).length ≤ 1 := by
  induction l with
  | nil => simp
  | cons x xs ih =>
    rw [List.map_cons, List.nodup_cons] at h
    by_cases hx : (x.collection_id == c && x.book_id == b) = true
    · have hnil : xs.filter (fun m => m.collection_id == c && m.book_id == b) = [] := by
        rw [List.filter_eq_nil_iff]
        intro y hy hyk
        apply h.1
        simp only [Bool.and_eq_true, beq_iff_eq] at hx hyk
        exact List.mem_map.2 ⟨y, hy, by rw [hx.1, hx.2, hyk.1, hyk.2]⟩
      simp only [List.filter_cons, hx, if_true, hnil, List.length_singleton, le_refl]
    · simp only [List.filter_cons, hx, Bool.false_eq_true, if_false]
      exact ih h.2

/-- Claim C16: in every store reached from the empty store by a sequence of
repository operations, at most one membership row holds any given pair
(collection id, book id); and `AddBookToCollection` on a pair that is present
returns the error of the primary key and leaves the store as it is. -/
theorem membership_pair_unique (fk : Bool) (trace : List (Nat × Op)) :
    (∀ c b : Int, ((applyAll (emptyStore fk) trace).collection_books.filter
        (fun m => m.collection_id == c && m.book_id == b)).length ≤ 1) ∧
    (∀ (now : Nat) (c b : Int),
      (∃ m ∈ (applyAll (emptyStore fk) trace).collection_books,
          m.collection_id = c ∧ m.book_id = b) →
      AddBookToCollection (applyAll (emptyStore fk) trace) now c b =
        (.error (.constraint
          "UNIQUE constraint failed: collection_books.collection_id, collection_books.book_id"),
          applyAll (emptyStore fk) trace)) := by
  have hkeys : KeysUnique (applyAll (emptyStore fk) trace) :=
    KeysUnique_applyAll trace _ ⟨List.nodup_nil, List.nodup_nil, List.nodup_nil⟩
  refine ⟨fun c b => filter_pair_length_le_one _ hkeys.2.2 c b, ?_⟩
  rintro now c b ⟨m, hm, h1, h2⟩
  have hany : (applyAll (emptyStore fk) trace).collection_books.any
      (fun m => m.collection_id == c && m.book_id == b) = true := by
    rw [List.any_eq_true]
    exact ⟨m, hm, by simp [h1, h2]⟩
  simp only [AddBookToCollection, hany, if_true]

/-- Claim C16 at the end of `sampleTrace`, where the pair (1, 1) is present: a
second insert of the pair is rejected. -/
theorem membership_pair_unique_witness :
    applyAll (emptyStore false) sampleTrace = sampleTraceEnd ∧
    AddBookToCollection (applyAll (emptyStore false) sampleTrace) 12 1 1 =
      (.error (.constraint
        "UNIQUE constraint failed: collection_books.collection_id, collection_books.book_id"),
        applyAll (emptyStore false) sampleTrace) :=
  ⟨rfl, (membership_pair_unique false sampleTrace).2 12 1 1 ⟨⟨1, 1, 9⟩, by decide, rfl, rfl⟩⟩

/-! ## Reading collections -/

/-- Scanning a row loses nothing. -/
theorem scanBook_injective : Function.Injective scanBook := by
  intro r1 r2 h
  cases r1
  cases r2
  simp only [scanBook, Book.mk.injEq] at h
  simp only [BookRow.mk.injEq]
  exact h

/-- Reading the membership rows in the order of `book_id` reads the same rows. -/
theorem mem_sortedMembers (l : List CollectionBookRow) (m : CollectionBookRow) :
    m ∈ l.insertionSort (fun m1 m2 => m1.book_id ≤ m2.book_id) ↔ m ∈ l :=
  (List.perm_insertionSort _ l).mem_iff

/-- The rows returned by the join of `GetCollection`. -/
theorem mem_joinBooks (db : Store) (c : Int) (r : BookRow) :
    r ∈ joinBooks db c ↔
      r ∈ db.books ∧ ∃ m ∈ db.collection_books, m.collection_id = c ∧ m.book_id = r.id := by
  simp only [joinBooks, List.mem_flatMap, mem_sortedMembers, List.mem_filter, beq_iff_eq]
  constructor
  · rintro ⟨m, ⟨hm, hc⟩, hr, hid⟩
    exact ⟨hr, m, hm, hc, hid.symm⟩
  · rintro ⟨hr, m, hm, hc, hid⟩
    exact ⟨m, ⟨hm, hc⟩, hr, hid.symm⟩

/-- With the primary keys in force the join returns no row twice. -/
theorem joinBooks_nodup (db : Store) (c : Int) (h : KeysUnique db) :
    (joinBooks db c).Nodup := by
  obtain ⟨hb, _, hm⟩ := h
  unfold joinBooks
  rw [List.nodup_flatMap]
  constructor
  · intro m _
    exact (List.Nodup.of_map _ hb).filter _
  · have hpair0 : List.Pairwise
        (fun a b : CollectionBookRow =>
          (a.collection_id, a.book_id) ≠ (b.collection_id, b.book_id))
        (db.collection_books.filter (fun m => m.collection_id == c)) :=
      (List.pairwise_map.1 hm).filter _
    have hpair : List.Pairwise
        (fun a b : CollectionBookRow =>
          (a.collection_id, a.book_id) ≠ (b.collection_id, b.book_id))
        ((db.collection_books.filter (fun m => m.collection_id == c)).insertionSort
          (fun m1 m2 => m1.book_id ≤ m2.book_id)) :=
      ((List.perm_insertionSort _ _).pairwise_iff (fun h => Ne.symm h)).2 hpair0
    refine hpair.imp_of_mem ?_
    intro a b ha hb2 hne
    simp only [mem_sortedMembers, List.mem_filter, beq_iff_eq] at ha hb2
    simp only [Function.onFun]
    rw [List.disjoint_left]
    intro r hr1 hr2
    simp only [List.mem_filter, beq_iff_eq] at hr1 hr2
    apply hne
    rw [ha.2, hb2.2, ← hr1.2, ← hr2.2]

/-- Claim C17: in a store that satisfies the primary keys of the schema (as
every store reached by repository operations does), `GetCollection c` for a
stored collection returns its id and name with `Books` holding exactly the
stored books that have a membership row (c, book id), each of them once; and
`GetCollections` returns every stored collection with an empty `Books`,
whatever the membership rows are. -/
theorem GetCollection_books_are_members (db : Store) (h : KeysUnique db) (row : CollectionRow)
    (hrow : row ∈ db.collections) :
    (∃ books : List Book,
      GetCollection db row.id = .ok ⟨row.id, row.name, books⟩ ∧
      books.Nodup ∧
      (∀ bk : Book, bk ∈ books ↔
        ∃ r ∈ db.books, scanBook r = bk ∧
          ∃ m ∈ db.collection_books, m.collection_id = row.id ∧ m.book_id = r.id)) ∧
    GetCollections db = .ok (db.collections.map (fun r => ⟨r.id, r.name, []⟩)) ∧
    (∀ cs : List Collection, GetCollections db = .ok cs →
      cs.map (fun col => (col.ID, col.Name)) = db.collections.map (fun r => (r.id, r.name)) ∧
      ∀ col ∈ cs, col.Books = []) := by
  refine ⟨⟨(joinBooks db row.id).map scanBook, ?_, ?_, ?_⟩, rfl, ?_⟩
  · unfold GetCollection
    cases hf : db.collections.find? (fun r => r.id == row.id) with
    | none =>
      rw [List.find?_eq_none] at hf
      exact absurd (by simp) (hf row hrow)
    | some r =>
      have hr : r ∈ db.collections := List.mem_of_find?_eq_some hf
      have hid : r.id = row.id := by simpa using List.find?_some hf
      have heq : r = row := List.inj_on_of_nodup_map h.2.1 hr hrow hid
      rw [heq]
  · exact (joinBooks_nodup db row.id h).map scanBook_injective
  · intro bk
    simp only [List.mem_map, mem_joinBooks]
    constructor
    · rintro ⟨r, ⟨hr, hm⟩, rfl⟩
      exact ⟨r, hr, rfl, hm⟩
    · rintro ⟨r, hr, rfl, hm⟩
      exact ⟨r, ⟨hr, hm⟩, rfl⟩
  · intro cs hcs
    simp only [GetCollections, Except.ok.injEq] at hcs
    subst hcs
    constructor
    · simp [List.map_map, Function.comp]
    · intro col hcol
      simp only [List.mem_map] at hcol
      obtain ⟨r, _, rfl⟩ := hcol
      rfl

/-- The primary keys hold in `sampleStore`. -/
theorem sampleStore_keys : KeysUnique sampleStore :=
  ⟨by decide, by decide, by decide⟩

/-- Claim C17 on `sampleStore`: collection 1 is read with the one member book,
and the listing shows it with no books. -/
theorem GetCollection_books_are_members_witness :
    GetCollection sampleStore 1 =
      .ok ⟨1, "Classics", [⟨1, "Dune", "Herbert", "1965-08-01", "1st", "", "SciFi", 10, 10⟩]⟩ ∧
    GetCollections sampleStore = .ok [⟨1, "Classics", []⟩] :=
  ⟨rfl, (GetCollection_books_are_members sampleStore sampleStore_keys ⟨1, "Classics", 5, 5⟩
    (by decide)).2.1⟩

/-! ## End to end -/

/-- Claim C18: from the empty store, with or without foreign keys enforced and
at any clock readings, creating the book Dune returns id 1, creating the
collection Sci-Fi returns id 1, adding book 1 to collection 1 succeeds,
`GetCollection 1` then returns exactly the Dune book, removing book 1 from
collection 1 succeeds, and `GetCollection 1` then returns no books. -/
theorem end_to_end_dune (fk : Bool) (t1 t2 t3 : Nat) :
    (CreateBook (emptyStore fk) t1 duneBook).1 = .ok 1 ∧
    (CreateCollection (CreateBook (emptyStore fk) t1 duneBook).2 t2 sciFiCollection).1 = .ok 1 ∧
    (AddBookToCollection
      (CreateCollection (CreateBook (emptyStore fk) t1 duneBook).2 t2 sciFiCollection).2
      t3 1 1).1 = .ok () ∧
    GetCollection (AddBookToCollection
      (CreateCollection (CreateBook (emptyStore fk) t1 duneBook).2 t2 sciFiCollection).2
      t3 1 1).2 1 =
      .ok ⟨1, "Sci-Fi", [⟨1, "Dune", "Herbert", "1965-08-01", "", "", "", t1, t1⟩]⟩ ∧
    (RemoveBookFromCollection (AddBookToCollection
      (CreateCollection (CreateBook (emptyStore fk) t1 duneBook).2 t2 sciFiCollection).2
      t3 1 1).2 1 1).1 = .ok () ∧
    GetCollection (RemoveBookFromCollection (AddBookToCollection
      (CreateCollection (CreateBook (emptyStore fk) t1 duneBook).2 t2 sciFiCollection).2
      t3 1 1).2 1 1).2 1 = .ok ⟨1, "Sci-Fi", []⟩ := by
  cases fk <;> exact ⟨rfl, rfl, rfl, rfl, rfl, rfl⟩

/-! ## Validation of dates and required fields -/

/-- The digit test of the model is the digit test of the library. -/
theorem isDigit_eq (c : Char) : isDigit c = c.isDigit := by
  unfold isDigit Char.isDigit
  rw [Bool.eq_iff_iff]
  simp only [Bool.and_eq_true, decide_eq_true_eq, ge_iff_le]
  constructor
  · rintro ⟨h1, h2⟩
    exact ⟨h1, h2⟩
  · rintro ⟨h1, h2⟩
    exact ⟨h1, h2⟩

/-- Go `daysIn` agrees with the calendar on the twelve months. -/
theorem daysIn_eq_specMonthLength (m y : Nat) (h1 : 1 ≤ m) (h2 : m ≤ 12) :
    daysIn m y = specMonthLength y m := by
  have hleap : isLeap y = true ↔ (y % 400 = 0 ∨ (y % 4 = 0 ∧ y % 100 ≠ 0)) := by
    unfold isLeap
    simp only [Bool.and_eq_true, beq_iff_eq, Bool.or_eq_true, bne_iff_ne, ne_eq]
    omega
  interval_cases m <;> simp [daysIn, specMonthLength]
  by_cases hl : isLeap y = true
  · simp [hl, hleap.1 hl]
  · have := fun h => hl (hleap.2 h)
    simp only [Bool.not_eq_true] at hl
    simp only [hl, Bool.false_eq_true, if_false]
    exact (if_neg this).symm

/-- `time.Parse` under the layout `2006-01-02` succeeds exactly on the texts
that match `YYYY-MM-DD` and denote a real calendar date. -/
theorem parseDate_isSome (s : String) : (parseDate s).isSome = specCalendarDate s := by
  unfold parseDate specCalendarDate
  split
  · rename_i y1 y2 y3 y4 s1 m1 m2 s2 d1 d2 heq
    simp only [List.all_cons, List.all_nil, Bool.and_true, ← isDigit_eq, specDecimal,
      List.foldl_cons, List.foldl_nil, Nat.mul_zero, Nat.zero_add]
    have hy : digitVal y1 * 1000 + digitVal y2 * 100 + digitVal y3 * 10 + digitVal y4 =
        10 * (10 * (10 * (y1.toNat - 48) + (y2.toNat - 48)) + (y3.toNat - 48)) +
          (y4.toNat - 48) := by
      simp only [digitVal, show '0'.toNat = 48 from rfl]
      ring
    have hm : digitVal m1 * 10 + digitVal m2 = 10 * (m1.toNat - 48) + (m2.toNat - 48) := by
      simp only [digitVal, show '0'.toNat = 48 from rfl]
      ring
    have hd : digitVal d1 * 10 + digitVal d2 = 10 * (d1.toNat - 48) + (d2.toNat - 48) := by
      simp only [digitVal, show '0'.toNat = 48 from rfl]
      ring
    rw [hy, hm, hd]
    generalize 10 * (10 * (10 * (y1.toNat - 48) + (y2.toNat - 48)) + (y3.toNat - 48)) +
          (y4.toNat - 48) = y
    generalize 10 * (m1.toNat - 48) + (m2.toNat - 48) = m
    generalize 10 * (d1.toNat - 48) + (d2.toNat - 48) = d
    by_cases hdig : (isDigit y1 && isDigit y2 && isDigit y3 && isDigit y4 && s1 == '-' &&
        isDigit m1 && isDigit m2 && s2 == '-' && isDigit d1 && isDigit d2) = true
    · rw [if_pos hdig]
      simp only [Bool.and_eq_true, beq_iff_eq] at hdig
      obtain ⟨⟨⟨⟨⟨⟨⟨⟨⟨a1, a2⟩, a3⟩, a4⟩, a5⟩, a6⟩, a7⟩, a8⟩, a9⟩, a10⟩ := hdig
      simp only [a1, a2, a3, a4, a5, a6, a7, a8, a9, a10, Bool.and_self, beq_self_eq_true,
        Bool.true_and]
      by_cases hmr : 1 ≤ m ∧ m ≤ 12
      · have hmm : (m == 0 || decide (12 < m)) = false := by
          simp only [Bool.or_eq_false_iff, beq_eq_false_iff_ne, ne_eq, decide_eq_false_iff_not]
          omega
        rw [hmm, ← daysIn_eq_specMonthLength m y hmr.1 hmr.2]
        simp only [Bool.false_eq_true, if_false, hmr.1, hmr.2, decide_True, Bool.true_and]
        by_cases hdr : 1 ≤ d ∧ d ≤ daysIn m y
        · have hdd : (decide (d < 1) || decide (d > daysIn m y)) = false := by
            simp only [Bool.or_eq_false_iff, decide_eq_false_iff_not]
            omega
          rw [hdd]
          simp [hdr.1, hdr.2]
        · have hdd : (decide (d < 1) || decide (d > daysIn m y)) = true := by
            simp only [Bool.or_eq_true, decide_eq_true_eq]
            omega
          rw [hdd]
          simp only [if_true, Option.isSome_none]
          symm
          rw [← Bool.not_eq_true]
          simp only [Bool.and_eq_true, decide_eq_true_eq]
          exact hdr
      · have hmm : (m == 0 || decide (12 < m)) = true := by
          simp only [Bool.or_eq_true, beq_iff_eq, decide_eq_true_eq]
          omega
        rw [hmm]
        simp only [if_true, Option.isSome_none]
        symm
        rw [← Bool.not_eq_true]
        simp only [Bool.and_eq_true, decide_eq_true_eq]
        intro h
        exact hmr ⟨h.1.1.1, h.1.1.2⟩
    · rw [if_neg hdig]
      simp only [Option.isSome_none]
      symm
      rw [← Bool.not_eq_true]
      intro h
      apply hdig
      simp only [Bool.and_eq_true, beq_iff_eq, decide_eq_true_eq] at h ⊢
      tauto
  · rfl

/-- The response to a book that fails the validation checks, and the store. -/
theorem createBook_of_invalid (db : Store) (now : Nat) (book : Book) (resp : Response)
    (h : validateBook book = some resp) : createBook db now (.ok book) = (resp, db) := by
  simp only [createBook, h]

/-- The response of the PUT handler to a book that fails the validation checks. -/
theorem updateBook_of_invalid (db : Store) (now : Nat) (idVar : String) (book : Book)
    (resp : Response) (h : validateBook { book with ID := (Atoi idVar).1 } = some resp) :
    updateBook db now idVar book = (resp, db) := by
  simp only [updateBook, h]

/-- Claim C19: for a decoded book whose title, author or published date is the
empty string, the handlers `createBook` and `updateBook` answer 400 with the
message that the three fields are required, and leave the store unchanged. -/
theorem empty_required_field_rejected (db : Store) (now : Nat) (idVar : String) (book : Book)
    (h : book.Title = "" ∨ book.Author = "" ∨ book.PublishedDate = "") :
    createBook db now (.ok book) =
      (⟨StatusBadRequest, .error "Title, author, and published date are required"⟩, db) ∧
    updateBook db now idVar book =
      (⟨StatusBadRequest, .error "Title, author, and published date are required"⟩, db) := by
  have hv : ∀ id : Int, validateBook { book with ID := id } =
      some ⟨StatusBadRequest, .error "Title, author, and published date are required"⟩ := by
    intro id
    unfold validateBook
    rw [if_pos]
    simpa [or_assoc] using h
  exact ⟨createBook_of_invalid db now book _ (hv book.ID),
    updateBook_of_invalid db now idVar book _ (hv _)⟩

/-- Claim C19 on `sampleStore` and a book without author. -/
theorem empty_required_field_rejected_witness :
    createBook sampleStore 40 (.ok ⟨0, "Emma", "", "1815-12-23", "", "", "", 0, 0⟩) =
      (⟨StatusBadRequest, .error "Title, author, and published date are required"⟩,
        sampleStore) ∧
    updateBook sampleStore 40 "2" ⟨0, "Emma", "", "1815-12-23", "", "", "", 0, 0⟩ =
      (⟨StatusBadRequest, .error "Title, author, and published date are required"⟩,
        sampleStore) :=
  empty_required_field_rejected sampleStore 40 "2"
    ⟨0, "Emma", "", "1815-12-23", "", "", "", 0, 0⟩ (Or.inr (Or.inl rfl))

/-- Claim C20: for a decoded book whose published date does not match
`YYYY-MM-DD` or does not denote a real calendar date, `createBook` answers 400
and the store after the request is the store before it; when the three
required fields are non-empty the message is that of the date format. -/
theorem createBook_rejects_invalid_date (db : Store) (now : Nat) (book : Book)
    (h : specCalendarDate book.PublishedDate = false) :
    (createBook db now (.ok book)).1.status = StatusBadRequest ∧
    (createBook db now (.ok book)).2 = db ∧
    (book.Title ≠ "" → book.Author ≠ "" → book.PublishedDate ≠ "" →
      (createBook db now (.ok book)).1 =
        ⟨StatusBadRequest, .error "Invalid published date format, expected YYYY-MM-DD"⟩) := by
  have hparse : parseDate book.PublishedDate = none := by
    have hs := parseDate_isSome book.PublishedDate
    rw [h] at hs
    cases hp : parseDate book.PublishedDate with
    | none => rfl
    | some d => simp [hp] at hs
  have hex : ∃ resp, validateBook book = some resp := by
    unfold validateBook
    split_ifs
    · exact ⟨_, rfl⟩
    · simp only [hparse]
      exact ⟨_, rfl⟩
  obtain ⟨resp, hresp⟩ := hex
  rw [createBook_of_invalid db now book resp hresp]
  refine ⟨validateBook_status book resp hresp, rfl, ?_⟩
  intro ht ha hp
  have hv : validateBook book =
      some ⟨StatusBadRequest, .error "Invalid published date format, expected YYYY-MM-DD"⟩ := by
    unfold validateBook
    rw [if_neg (by simp [ht, ha, hp])]
    simp only [hparse]
  rw [hv] at hresp
  exact (Option.some.inj hresp).symm

/-- Claim C20 on the date `1965-13-99`: month 13 does not exist, the request is
answered 400 and nothing is written to `sampleStore`. -/
theorem createBook_rejects_invalid_date_witness :
    (createBook sampleStore 40
      (.ok ⟨0, "Dune", "Herbert", "1965-13-99", "", "", "", 0, 0⟩)).1.status = StatusBadRequest ∧
    (createBook sampleStore 40
      (.ok ⟨0, "Dune", "Herbert", "1965-13-99", "", "", "", 0, 0⟩)).2 = sampleStore :=
  ⟨(createBook_rejects_invalid_date sampleStore 40
      ⟨0, "Dune", "Herbert", "1965-13-99", "", "", "", 0, 0⟩ (by decide)).1,
    (createBook_rejects_invalid_date sampleStore 40
      ⟨0, "Dune", "Herbert", "1965-13-99", "", "", "", 0, 0⟩ (by decide)).2.1⟩

/-! ## Validation of collections -/

/-- Claim C22: for a decoded collection whose name is the empty string the
handlers `createCollection` and `updateCollection` answer 400 and leave the
store unchanged; for a non-empty name they do not answer 400
(`createCollection` answers 201, or 500 when no row id is left, and
`updateCollection` answers 200). -/
theorem collection_name_required (db : Store) (now : Nat) (idVar : String)
    (decoded : Collection) :
    (decoded.Name = "" →
      createCollection db now decoded =
        (⟨StatusBadRequest, .error "Collection name is required"⟩, db) ∧
      updateCollection db idVar decoded =
        (⟨StatusBadRequest, .error "Collection name is required"⟩, db)) ∧
    (decoded.Name ≠ "" →
      (createCollection db now decoded).1.status =
        (if rowidFull (db.collections.map (fun r => r.id)) db.collections_seq then
          StatusInternalServerError else StatusCreated) ∧
      (createCollection db now decoded).1.status ≠ StatusBadRequest ∧
      (updateCollection db idVar decoded).1.status = StatusOK ∧
      (updateCollection db idVar decoded).1.status ≠ StatusBadRequest) := by
  constructor
  · intro h
    simp [createCollection, updateCollection, h]
  · intro h
    have hc : (createCollection db now decoded).1.status =
        (if rowidFull (db.collections.map (fun r => r.id)) db.collections_seq then
          StatusInternalServerError else StatusCreated) := by
      cases hfull : rowidFull (db.collections.map (fun r => r.id)) db.collections_seq with
      | true => simp [createCollection, h, CreateCollection_of_full db now decoded hfull]
      | false => simp [createCollection, h, CreateCollection_of_room db now decoded hfull]
    have hu : (updateCollection db idVar decoded).1.status = StatusOK := by
      simp [updateCollection, h, UpdateCollection]
    refine ⟨hc, ?_, hu, ?_⟩
    · rw [hc]
      split_ifs <;> decide
    · rw [hu]
      decide

/-- Claim C22 on `sampleStore` and the empty name. -/
theorem collection_name_required_witness :
    createCollection sampleStore 40 ⟨0, "", []⟩ =
      (⟨StatusBadRequest, .error "Collection name is required"⟩, sampleStore) ∧
    updateCollection sampleStore "1" ⟨0, "", []⟩ =
      (⟨StatusBadRequest, .error "Collection name is required"⟩, sampleStore) :=
  (collection_name_required sampleStore 40 "1" ⟨0, "", []⟩).1 rfl

/-! ## Timestamps come from the storage clock -/

/-- Claim C23: `CreateBook` and `UpdateBook` never read the caller's
`CreatedAt` and `UpdatedAt`: two book arguments that differ only in these two
fields give the same returned id and the same resulting store; the timestamps
written by a successful insert and by the update are the clock reading of the
statement. -/
theorem timestamps_not_from_caller (db : Store) (now : Nat) (b : Book) (createdAt updatedAt : Nat) :
    CreateBook db now { b with CreatedAt := createdAt, UpdatedAt := updatedAt } =
      CreateBook db now b ∧
    UpdateBook db now { b with CreatedAt := createdAt, UpdatedAt := updatedAt } =
      UpdateBook db now b ∧
    (∀ id : Int, (CreateBook db now b).1 = .ok id →
      ∃ row : BookRow, (CreateBook db now b).2.books = db.books ++ [row] ∧
        row.created_at = now ∧ row.updated_at = now) ∧
    (∀ r ∈ db.books, r.id = b.ID →
      (setBook now b r).updated_at = now ∧ (setBook now b r).created_at = r.created_at) := by
  refine ⟨rfl, rfl, ?_, ?_⟩
  · intro id hid
    obtain ⟨hroom, _⟩ := CreateBook_ok db now b id hid
    rw [CreateBook_of_room db now b hroom]
    exact ⟨_, rfl, rfl, rfl⟩
  · intro r _ hid
    simp [setBook, hid]

/-- Claim C23 on `sampleStore`: two calls that differ in the caller's
timestamps give the same result. -/
theorem timestamps_not_from_caller_witness :
    CreateBook sampleStore 40 ⟨0, "Ulysses", "Joyce", "1922-02-02", "", "", "", 7, 9⟩ =
      CreateBook sampleStore 40 ⟨0, "Ulysses", "Joyce", "1922-02-02", "", "", "", 0, 0⟩ :=
  (timestamps_not_from_caller sampleStore 40
    ⟨0, "Ulysses", "Joyce", "1922-02-02", "", "", "", 0, 0⟩ 7 9).1

/-! ## The two book handlers validate alike -/

/-- The validation checks do not read the id. -/
theorem validateBook_ID (book : Book) (id : Int) :
    validateBook { book with ID := id } = validateBook book := rfl

/-- The handler `createBook` on a book that passes the validation checks, when
the table has room. -/
theorem createBook_of_valid (db : Store) (now : Nat) (book : Book)
    (h : validateBook book = none)
    (hroom : rowidFull (db.books.map (fun r => r.id)) db.books_seq = false) :
    createBook db now (.ok book) =
      (⟨StatusCreated, .book { book with
          ID := nextRowid (db.books.map (fun r => r.id)) db.books_seq }⟩,
        (CreateBook db now book).2) := by
  simp only [createBook, h, CreateBook_of_room db now book hroom]

/-- The handler `createBook` on a book that passes the validation checks, when
no row id is left. -/
theorem createBook_of_valid_full (db : Store) (now : Nat) (book : Book)
    (h : validateBook book = none)
    (hfull : rowidFull (db.books.map (fun r => r.id)) db.books_seq = true) :
    createBook db now (.ok book) =
      (⟨StatusInternalServerError, .error DBError.full.Error⟩, db) := by
  simp only [createBook, h, CreateBook_of_full db now book hfull]

/-- A book that passes the validation checks is not answered 400 by
`createBook`. -/
theorem createBook_of_valid_status (db : Store) (now : Nat) (book : Book)
    (h : validateBook book = none) :
    (createBook db now (.ok book)).1.status ≠ StatusBadRequest := by
  cases hfull : rowidFull (db.books.map (fun r => r.id)) db.books_seq with
  | true =>
    rw [createBook_of_valid_full db now book h hfull]
    show StatusInternalServerError ≠ StatusBadRequest
    decide
  | false =>
    rw [createBook_of_valid db now book h hfull]
    show StatusCreated ≠ StatusBadRequest
    decide

/-- The handler `updateBook` on a book that passes the validation checks. -/
theorem updateBook_of_valid (db : Store) (now : Nat) (idVar : String) (book : Book)
    (h : validateBook book = none) :
    updateBook db now idVar book =
      (⟨StatusOK, .book { book with ID := (Atoi idVar).1 }⟩,
        (UpdateBook db now { book with ID := (Atoi idVar).1 }).2) := by
  have h2 : validateBook { book with ID := (Atoi idVar).1 } = none := h
  simp only [updateBook, h2, UpdateBook]

/-- Claim C29: for every decoded book, `createBook` answers 400 exactly when
`updateBook` answers 400, and when they do the two responses (status and
message) are the same. -/
theorem createBook_updateBook_same_validation (db1 db2 : Store) (now1 now2 : Nat)
    (idVar : String) (book : Book) :
    ((createBook db1 now1 (.ok book)).1.status = StatusBadRequest ↔
      (updateBook db2 now2 idVar book).1.status = StatusBadRequest) ∧
    ((createBook db1 now1 (.ok book)).1.status = StatusBadRequest →
      (createBook db1 now1 (.ok book)).1 = (updateBook db2 now2 idVar book).1) := by
  cases hv : validateBook book with
  | none =>
    have hc := createBook_of_valid_status db1 now1 book hv
    rw [updateBook_of_valid db2 now2 idVar book hv]
    refine ⟨⟨fun h => ?_, fun h => ?_⟩, fun h => ?_⟩
    · exact absurd h hc
    · exact absurd h (by show StatusOK ≠ StatusBadRequest; decide)
    · exact absurd h hc
  | some resp =>
    rw [createBook_of_invalid db1 now1 book resp hv,
      updateBook_of_invalid db2 now2 idVar book resp hv]
    exact ⟨Iff.rfl, fun _ => rfl⟩

/-- Claim C29 on a book with an impossible date: both handlers answer 400 with
the same message. -/
theorem createBook_updateBook_same_validation_witness :
    (createBook sampleStore 40
      (.ok ⟨0, "Dune", "Herbert", "1965-02-30", "", "", "", 0, 0⟩)).1 =
    (updateBook sampleStore 41 "1" ⟨0, "Dune", "Herbert", "1965-02-30", "", "", "", 0, 0⟩).1 :=
  (createBook_updateBook_same_validation sampleStore sampleStore 40 41 "1"
    ⟨0, "Dune", "Herbert", "1965-02-30", "", "", "", 0, 0⟩).2 (by decide)

/-! ## Deleting what is not there -/

/-- A filter that keeps every row keeps the list. -/
theorem filter_eq_self_of_forall {α : Type} (p : α → Bool) (l : List α)
    (h : ∀ x ∈ l, p x = true) : l.filter p = l :=
  List.filter_eq_self.2 h

/-- Claim C30: `DeleteBook`, `DeleteCollection` and `RemoveBookFromCollection`
on a target that is not stored return no error and leave the store unchanged;
applying any of them twice gives the store that applying it once gives; and the
handlers `deleteBook` and `deleteCollection` answer 204 for an id that is not
stored. -/
theorem delete_idempotent (db : Store) (id c b : Int) (idVar : String) :
    ((∀ r ∈ db.books, r.id ≠ id) → DeleteBook db id = (.ok (), db)) ∧
    ((∀ r ∈ db.collections, r.id ≠ id) → DeleteCollection db id = (.ok (), db)) ∧
    ((∀ m ∈ db.collection_books, ¬ (m.collection_id = c ∧ m.book_id = b)) →
      RemoveBookFromCollection db c b = (.ok (), db)) ∧
    DeleteBook (DeleteBook db id).2 id = (.ok (), (DeleteBook db id).2) ∧
    DeleteCollection (DeleteCollection db id).2 id = (.ok (), (DeleteCollection db id).2) ∧
    RemoveBookFromCollection (RemoveBookFromCollection db c b).2 c b =
      (.ok (), (RemoveBookFromCollection db c b).2) ∧
    ((∀ r ∈ db.books, r.id ≠ (Atoi idVar).1) →
      deleteBook db idVar = (⟨StatusNoContent, .empty⟩, db)) ∧
    ((∀ r ∈ db.collections, r.id ≠ (Atoi idVar).1) →
      deleteCollection db idVar = (⟨StatusNoContent, .empty⟩, db)) := by
  have hbook : ∀ (d : Store) (i : Int), (∀ r ∈ d.books, r.id ≠ i) →
      DeleteBook d i = (.ok (), d) := by
    intro d i h
    have hany : d.books.any (fun r => r.id == i) = false := by
      rw [List.any_eq_false]
      intro r hr
      simpa using h r hr
    have hfilter : d.books.filter (fun r => !(r.id == i)) = d.books :=
      filter_eq_self_of_forall _ _ (fun r hr => by simpa using h r hr)
    simp only [DeleteBook, hany, hfilter, Bool.and_false, Bool.false_eq_true, if_false]
  have hcoll : ∀ (d : Store) (i : Int), (∀ r ∈ d.collections, r.id ≠ i) →
      DeleteCollection d i = (.ok (), d) := by
    intro d i h
    have hany : d.collections.any (fun r => r.id == i) = false := by
      rw [List.any_eq_false]
      intro r hr
      simpa using h r hr
    have hfilter : d.collections.filter (fun r => !(r.id == i)) = d.collections :=
      filter_eq_self_of_forall _ _ (fun r hr => by simpa using h r hr)
    simp only [DeleteCollection, hany, hfilter, Bool.and_false, Bool.false_eq_true, if_false]
  have hrem : ∀ (d : Store), (∀ m ∈ d.collection_books, ¬ (m.collection_id = c ∧ m.book_id = b)) →
      RemoveBookFromCollection d c b = (.ok (), d) := by
    intro d h
    have hfilter : d.collection_books.filter
        (fun m => !(m.collection_id == c && m.book_id == b)) = d.collection_books :=
      filter_eq_self_of_forall _ _ (fun m hm => by
        have := h m hm
        simp only [Bool.not_eq_true', Bool.and_eq_false_iff, beq_eq_false_iff_ne, ne_eq]
        tauto)
    simp only [RemoveBookFromCollection, hfilter]
  refine ⟨hbook db id, hcoll db id, hrem db, ?_, ?_, ?_, ?_, ?_⟩
  · apply hbook
    intro r hr
    simp only [DeleteBook, List.mem_filter] at hr
    simpa using hr.2
  · apply hcoll
    intro r hr
    simp only [DeleteCollection, List.mem_filter] at hr
    simpa using hr.2
  · apply hrem
    intro m hm
    simp only [RemoveBookFromCollection, List.mem_filter, Bool.not_eq_true',
      Bool.and_eq_false_iff, beq_eq_false_iff_ne, ne_eq] at hm
    tauto
  · intro h
    simp only [deleteBook, hbook db _ h]
  · intro h
    simp only [deleteCollection, hcoll db _ h]

/-- Claim C30 on `sampleStore`, which holds no book 7. -/
theorem delete_idempotent_witness :
    DeleteBook sampleStore 7 = (.ok (), sampleStore) ∧
    deleteBook sampleStore "7" = (⟨StatusNoContent, .empty⟩, sampleStore) :=
  ⟨(delete_idempotent sampleStore 7 1 2 "7").1 (by decide),
    (delete_idempotent sampleStore 7 1 2 "7").2.2.2.2.2.2.1 (by decide)⟩

/-! ## Adding and removing a membership -/

/-- Claim C27: in a store that holds collection `c` and book `b` but no
membership row for the pair, `AddBookToCollection c b` succeeds, after it
`IsBookInCollection c b` is true and exactly one membership row holds the pair;
a following `RemoveBookFromCollection c b` succeeds, after it
`IsBookInCollection c b` is false and the store (membership rows, books and
collections) is what it was before the add; books and collections are the same
in all three stores. -/
theorem add_then_remove_membership (db : Store) (now : Nat) (c b : Int)
    (hc : ∃ r ∈ db.collections, r.id = c) (hb : ∃ r ∈ db.books, r.id = b)
    (hno : ∀ m ∈ db.collection_books, ¬ (m.collection_id = c ∧ m.book_id = b)) :
    ∃ db1 db2 : Store,
      AddBookToCollection db now c b = (.ok (), db1) ∧
      IsBookInCollection db1 c b = .ok true ∧
      (db1.collection_books.filter
        (fun m => m.collection_id == c && m.book_id == b)).length = 1 ∧
      db1.collection_books = db.collection_books ++ [⟨c, b, now⟩] ∧
      db1.books = db.books ∧ db1.collections = db.collections ∧
      RemoveBookFromCollection db1 c b = (.ok (), db2) ∧
      IsBookInCollection db2 c b = .ok false ∧
      db2.collection_books = db.collection_books ∧
      db2 = db := by
  have hany : db.collection_books.any
      (fun m => m.collection_id == c && m.book_id == b) = false := by
    rw [List.any_eq_false]
    intro m hm
    simpa using hno m hm
  have hcany : db.collections.any (fun r => r.id == c) = true := by
    obtain ⟨r, hr, hid⟩ := hc
    rw [List.any_eq_true]
    exact ⟨r, hr, by simp [hid]⟩
  have hbany : db.books.any (fun r => r.id == b) = true := by
    obtain ⟨r, hr, hid⟩ := hb
    rw [List.any_eq_true]
    exact ⟨r, hr, by simp [hid]⟩
  have hkeep : db.collection_books.filter
      (fun m => !(m.collection_id == c && m.book_id == b)) = db.collection_books :=
    List.filter_eq_self.2 (fun m hm => by
      have := hno m hm
      simp only [Bool.not_eq_true', Bool.and_eq_false_iff, beq_eq_false_iff_ne, ne_eq]
      tauto)
  have hnone : db.collection_books.filter
      (fun m => m.collection_id == c && m.book_id == b) = [] := by
    rw [List.filter_eq_nil_iff]
    intro m hm
    have := hno m hm
    simp only [Bool.and_eq_true, beq_iff_eq]
    exact this
  refine ⟨{ db with collection_books := db.collection_books ++ [⟨c, b, now⟩] }, db,
    ?_, ?_, ?_, rfl, rfl, rfl, ?_, ?_, rfl, rfl⟩
  · simp [AddBookToCollection, hany, hcany, hbany]
  · rw [IsBookInCollection_eq_any]
    simp
  · simp [List.filter_append, hnone]
  · simp only [RemoveBookFromCollection, List.filter_append, hkeep]
    simp
  · rw [IsBookInCollection_eq_any, hany]

/-- Claim C27 on `sampleStore`: book 2 is added to collection 1 and removed
again. -/
theorem add_then_remove_membership_witness :
    ∃ db1 db2 : Store,
      AddBookToCollection sampleStore 40 1 2 = (.ok (), db1) ∧
      IsBookInCollection db1 1 2 = .ok true ∧
      (db1.collection_books.filter
        (fun m => m.collection_id == 1 && m.book_id == 2)).length = 1 ∧
      db1.collection_books = sampleStore.collection_books ++ [⟨1, 2, 40⟩] ∧
      db1.books = sampleStore.books ∧ db1.collections = sampleStore.collections ∧
      RemoveBookFromCollection db1 1 2 = (.ok (), db2) ∧
      IsBookInCollection db2 1 2 = .ok false ∧
      db2.collection_books = sampleStore.collection_books ∧
      db2 = sampleStore :=
  add_then_remove_membership sampleStore 40 1 2
    ⟨⟨1, "Classics", 5, 5⟩, by decide, rfl⟩
    ⟨⟨2, "Emma", "Austen", "1815-12-23", "", "", "Novel", 20, 25⟩, by decide, rfl⟩
    (by decide)

/-! ## Success status codes -/

/-- Claim C25: when the repository call behind a handler succeeds on a valid
request, the handler answers with the documented status: 200 for listing,
reading and updating books and collections, 201 for creating a book or a
collection, 204 for deleting a book or a collection and for adding a book to or
removing it from a collection. -/
theorem success_status_codes (db : Store) (now : Nat) (idVar bookIdVar : String)
    (author genre from_ to_ : String) (book : Book) (coll : Collection) :
    (∀ bs, GetBooks db author genre from_ to_ = .ok bs →
      getBooks db author genre from_ to_ = ⟨StatusOK, .books bs⟩) ∧
    (∀ bk, GetBook db (Atoi idVar).1 = .ok bk → getBook db idVar = ⟨StatusOK, .book bk⟩) ∧
    (validateBook book = none → ∀ id, (CreateBook db now book).1 = .ok id →
      (createBook db now (.ok book)).1.status = StatusCreated) ∧
    (validateBook book = none →
      (UpdateBook db now { book with ID := (Atoi idVar).1 }).1 = .ok () →
      (updateBook db now idVar book).1.status = StatusOK) ∧
    ((DeleteBook db (Atoi idVar).1).1 = .ok () →
      (deleteBook db idVar).1 = ⟨StatusNoContent, .empty⟩) ∧
    (∀ cs, GetCollections db = .ok cs → getCollections db = ⟨StatusOK, .collections cs⟩) ∧
    (∀ col, GetCollection db (Atoi idVar).1 = .ok col →
      getCollection db idVar = ⟨StatusOK, .collection col⟩) ∧
    (coll.Name ≠ "" → ∀ id, (CreateCollection db now coll).1 = .ok id →
      (createCollection db now coll).1.status = StatusCreated) ∧
    (coll.Name ≠ "" →
      (UpdateCollection db { coll with ID := (Atoi idVar).1 }).1 = .ok () →
      (updateCollection db idVar coll).1.status = StatusOK) ∧
    ((DeleteCollection db (Atoi idVar).1).1 = .ok () →
      (deleteCollection db idVar).1 = ⟨StatusNoContent, .empty⟩) ∧
    (∀ c b : Int, Atoi idVar = (c, false) → Atoi bookIdVar = (b, false) →
      IsBookInCollection db c b = .ok false →
      (AddBookToCollection db now c b).1 = .ok () →
      (addBookToCollection db now idVar bookIdVar).1 = ⟨StatusNoContent, .empty⟩) ∧
    (∀ c b : Int, Atoi idVar = (c, false) → Atoi bookIdVar = (b, false) →
      IsBookInCollection db c b = .ok true →
      (RemoveBookFromCollection db c b).1 = .ok () →
      (removeBookFromCollection db idVar bookIdVar).1 = ⟨StatusNoContent, .empty⟩) := by
  refine ⟨?_, ?_, ?_, ?_, ?_, ?_, ?_, ?_, ?_, ?_, ?_, ?_⟩
  · intro bs h
    simp only [getBooks, h]
  · intro bk h
    simp only [getBook, h]
  · intro hv id hid
    rw [createBook_of_valid db now book hv (CreateBook_ok db now book id hid).1]
  · intro hv _
    rw [updateBook_of_valid db now idVar book hv]
  · intro _
    simp only [deleteBook, DeleteBook]
  · intro cs h
    simp only [getCollections, h]
  · intro col h
    simp only [getCollection, h]
  · intro hn id hid
    cases hfull : rowidFull (db.collections.map (fun r => r.id)) db.collections_seq with
    | true =>
      rw [CreateCollection_of_full db now coll hfull] at hid
      exact absurd hid (by simp)
    | false => simp [createCollection, hn, CreateCollection_of_room db now coll hfull]
  · intro hn _
    simp [updateCollection, hn, UpdateCollection]
  · intro _
    simp only [deleteCollection, DeleteCollection]
  · intro c b hc hb hin hadd
    rw [IsBookInCollection_eq_any] at hin
    have hany : db.collection_books.any
        (fun m => m.collection_id == c && m.book_id == b) = false :=
      Except.ok.inj hin
    rw [addBookToCollection_eq db now idVar bookIdVar c b hc hb, hany]
    cases hres : AddBookToCollection db now c b with
    | mk res db1 =>
      rw [hres] at hadd
      simp only at hadd
      subst hadd
      rfl
  · intro c b hc hb hin _
    rw [IsBookInCollection_eq_any] at hin
    have hany : db.collection_books.any
        (fun m => m.collection_id == c && m.book_id == b) = true :=
      Except.ok.inj hin
    rw [removeBookFromCollection_eq db idVar bookIdVar c b hc hb, hany]
    rfl

/-- Claim C25 on `sampleStore`: adding book 2 to collection 1 answers 204 and
removing book 1 from it answers 204. -/
theorem success_status_codes_witness :
    (addBookToCollection sampleStore 40 "1" "2").1 = ⟨StatusNoContent, .empty⟩ ∧
    (removeBookFromCollection sampleStore "1" "1").1 = ⟨StatusNoContent, .empty⟩ :=
  ⟨(success_status_codes sampleStore 40 "1" "2" "" "" "" ""
      ⟨0, "Dune", "Herbert", "1965-08-01", "", "", "", 0, 0⟩ ⟨0, "Classics", []⟩).2.2.2.2.2.2.2.2.2.2.1
      1 2 rfl rfl rfl rfl,
    (success_status_codes sampleStore 40 "1" "1" "" "" "" ""
      ⟨0, "Dune", "Herbert", "1965-08-01", "", "", "", 0, 0⟩ ⟨0, "Classics", []⟩).2.2.2.2.2.2.2.2.2.2.2
      1 1 rfl rfl rfl rfl⟩

/-! ## What the create handler returns -/

/-- Claim C24 as stated fails: a valid request for the book Dune, sent without
timestamps and handled at clock reading 40 on the empty store, is answered 201
with a book whose id is the assigned id 1 but whose created and updated times
are the zero times of the request, while the stored row read by `GetBook 1` has
both times equal to 40. -/
theorem createBook_response_timestamps_counterexample :
    validateBook duneBook = none ∧
    (createBook (emptyStore false) 40 (.ok duneBook)).1 =
      ⟨StatusCreated, .book ⟨1, "Dune", "Herbert", "1965-08-01", "", "", "", 0, 0⟩⟩ ∧
    GetBook (createBook (emptyStore false) 40 (.ok duneBook)).2 1 =
      .ok ⟨1, "Dune", "Herbert", "1965-08-01", "", "", "", 40, 40⟩ ∧
    (⟨1, "Dune", "Herbert", "1965-08-01", "", "", "", 0, 0⟩ : Book).CreatedAt ≠
      (⟨1, "Dune", "Herbert", "1965-08-01", "", "", "", 40, 40⟩ : Book).CreatedAt :=
  ⟨rfl, rfl, rfl, by decide⟩

/-- Claim C24, amended: for a create-book request that passes validation and
for which `CreateBook` returns an id, the entity returned by the handler is the
decoded book in which only the id is replaced by that id, the id under which
`GetBook` then finds the new row; the created and updated times of the returned
entity are those of the decoded request, whereas the stored row has both equal
to the clock reading.  `CreateBook` does return an id on every store whose book
row ids and sequence entry are below the largest row id. -/
theorem createBook_response_has_assigned_id (db : Store) (now : Nat) (book : Book)
    (h : validateBook book = none) :
    (∀ id : Int, (CreateBook db now book).1 = .ok id →
      ∃ got : Book,
        createBook db now (.ok book) =
          (⟨StatusCreated, .book { book with ID := id }⟩, (CreateBook db now book).2) ∧
        GetBook (CreateBook db now book).2 id = .ok got ∧ got.ID = id ∧
        got.Title = book.Title ∧ got.Author = book.Author ∧
        got.PublishedDate = book.PublishedDate ∧ got.Edition = book.Edition ∧
        got.Description = book.Description ∧ got.Genre = book.Genre ∧
        got.CreatedAt = now ∧ got.UpdatedAt = now ∧
        ({ book with ID := id } : Book).CreatedAt = book.CreatedAt ∧
        ({ book with ID := id } : Book).UpdatedAt = book.UpdatedAt) ∧
    ((∀ r ∈ db.books, r.id < maxRowid) → db.books_seq < maxRowid →
      ∃ id : Int, (CreateBook db now book).1 = .ok id) := by
  constructor
  · intro id hid
    obtain ⟨hroom, rfl⟩ := CreateBook_ok db now book id hid
    exact ⟨_, createBook_of_valid db now book h hroom, GetBook_of_CreateBook db now book hroom,
      rfl, rfl, rfl, rfl, rfl, rfl, rfl, rfl, rfl, rfl, rfl⟩
  · intro hids hseq
    have hroom : rowidFull (db.books.map (fun r => r.id)) db.books_seq = false :=
      rowidFull_eq_false _ _ (fun x hx => by
        obtain ⟨r, hr, rfl⟩ := List.mem_map.1 hx
        exact hids r hr) hseq
    exact ⟨_, by rw [CreateBook_of_room db now book hroom]⟩

/-- Claim C24, amended, on the book Dune and the empty store. -/
theorem createBook_response_has_assigned_id_witness :
    ∃ got : Book,
      createBook (emptyStore false) 40 (.ok duneBook) =
        (⟨StatusCreated, .book { duneBook with ID := 1 }⟩,
          (CreateBook (emptyStore false) 40 duneBook).2) ∧
      GetBook (CreateBook (emptyStore false) 40 duneBook).2 1 = .ok got ∧ got.ID = 1 ∧
      got.Title = duneBook.Title ∧ got.Author = duneBook.Author ∧
      got.PublishedDate = duneBook.PublishedDate ∧ got.Edition = duneBook.Edition ∧
      got.Description = duneBook.Description ∧ got.Genre = duneBook.Genre ∧
      got.CreatedAt = 40 ∧ got.UpdatedAt = 40 ∧
      ({ duneBook with ID := 1 } : Book).CreatedAt = duneBook.CreatedAt ∧
      ({ duneBook with ID := 1 } : Book).UpdatedAt = duneBook.UpdatedAt :=
  (createBook_response_has_assigned_id (emptyStore false) 40 duneBook rfl).1 1 rfl

/-! ## The shape of a parsed date -/

/-- A decimal digit has a code from 48 to 57. -/
theorem isDigit_bounds (c : Char) (h : isDigit c = true) : 48 ≤ c.toNat ∧ c.toNat ≤ 57 := by
  unfold isDigit at h
  simp only [Bool.and_eq_true, decide_eq_true_eq] at h
  exact ⟨h.1, h.2⟩

/-- A text accepted by `time.Parse` under `2006-01-02` consists of four digits,
a hyphen, two digits, a hyphen and two digits, and the date returned is the one
these digits write. -/
theorem parseDate_shape (s : String) (d : Date) (h : parseDate s = some d) :
    ∃ y1 y2 y3 y4 m1 m2 d1 d2 : Char,
      s.data = [y1, y2, y3, y4, '-', m1, m2, '-', d1, d2] ∧
      isDigit y1 = true ∧ isDigit y2 = true ∧ isDigit y3 = true ∧ isDigit y4 = true ∧
      isDigit m1 = true ∧ isDigit m2 = true ∧ isDigit d1 = true ∧ isDigit d2 = true ∧
      d.year = digitVal y1 * 1000 + digitVal y2 * 100 + digitVal y3 * 10 + digitVal y4 ∧
      d.month = digitVal m1 * 10 + digitVal m2 ∧
      d.day = digitVal d1 * 10 + digitVal d2 := by
  unfold parseDate at h
  split at h
  · rename_i y1 y2 y3 y4 s1 m1 m2 s2 d1 d2 heq
    split_ifs at h with hdig
    simp only [Bool.and_eq_true, beq_iff_eq] at hdig
    obtain ⟨⟨⟨⟨⟨⟨⟨⟨⟨a1, a2⟩, a3⟩, a4⟩, a5⟩, a6⟩, a7⟩, a8⟩, a9⟩, a10⟩ := hdig
    subst a5 a8
    simp only at h
    split_ifs at h
    simp only [Option.some.injEq] at h
    subst h
    exact ⟨y1, y2, y3, y4, m1, m2, d1, d2, heq, a1, a2, a3, a4, a6, a7, a9, a10, rfl, rfl, rfl⟩
  · exact absurd h (by simp)

/-- The only text that `time.Parse` turns into the zero time is `0001-01-01`. -/
theorem parseDate_IsZero (s : String) (d : Date) (h : parseDate s = some d)
    (hz : d.IsZero = true) : s = "0001-01-01" := by
  obtain ⟨y1, y2, y3, y4, m1, m2, d1, d2, hs, a1, a2, a3, a4, a6, a7, a9, a10, hy, hm, hd⟩ :=
    parseDate_shape s d h
  simp only [Date.IsZero, Bool.and_eq_true, beq_iff_eq] at hz
  obtain ⟨⟨z1, z2⟩, z3⟩ := hz
  have b1 := isDigit_bounds _ a1
  have b2 := isDigit_bounds _ a2
  have b3 := isDigit_bounds _ a3
  have b4 := isDigit_bounds _ a4
  have b6 := isDigit_bounds _ a6
  have b7 := isDigit_bounds _ a7
  have b9 := isDigit_bounds _ a9
  have b10 := isDigit_bounds _ a10
  simp only [digitVal, show '0'.toNat = 48 from rfl] at hy hm hd
  have c1 : y1 = '0' := by
    rw [← Char.ofNat_toNat y1, show y1.toNat = 48 by omega]
  have c2 : y2 = '0' := by
    rw [← Char.ofNat_toNat y2, show y2.toNat = 48 by omega]
  have c3 : y3 = '0' := by
    rw [← Char.ofNat_toNat y3, show y3.toNat = 48 by omega]
  have c4 : y4 = '1' := by
    rw [← Char.ofNat_toNat y4, show y4.toNat = 49 by omega]
  have c6 : m1 = '0' := by
    rw [← Char.ofNat_toNat m1, show m1.toNat = 48 by omega]
  have c7 : m2 = '1' := by
    rw [← Char.ofNat_toNat m2, show m2.toNat = 49 by omega]
  have c9 : d1 = '0' := by
    rw [← Char.ofNat_toNat d1, show d1.toNat = 48 by omega]
  have c10 : d2 = '1' := by
    rw [← Char.ofNat_toNat d2, show d2.toNat = 49 by omega]
  subst c1 c2 c3 c4 c6 c7 c9 c10
  cases s
  simp only at hs
  subst hs
  rfl

/-! ## Valid dates that the handlers reject -/

/-- Claim C21 as stated fails: `0001-01-01` has the form `YYYY-MM-DD` and is a
real calendar date, and title and author are non-empty, yet both handlers
answer 400, because `time.Parse` returns the zero time for it. -/
theorem zero_date_rejected_counterexample :
    specCalendarDate "0001-01-01" = true ∧
    (createBook sampleStore 40
      (.ok ⟨0, "Annals", "Tacitus", "0001-01-01", "", "", "", 0, 0⟩)).1 =
      ⟨StatusBadRequest, .error "Invalid published date format, expected YYYY-MM-DD"⟩ ∧
    (updateBook sampleStore 40 "1"
      ⟨0, "Annals", "Tacitus", "0001-01-01", "", "", "", 0, 0⟩).1 =
      ⟨StatusBadRequest, .error "Invalid published date format, expected YYYY-MM-DD"⟩ :=
  ⟨by decide, rfl, rfl⟩

/-- Claim C21, amended: for a non-empty title and author and a published date
of the form `YYYY-MM-DD` that denotes a real calendar date other than
`0001-01-01`, the book passes the validation of both handlers: neither
`createBook` nor `updateBook` answers 400. -/
theorem valid_book_passes_validation (db : Store) (now : Nat) (idVar : String) (book : Book)
    (ht : book.Title ≠ "") (ha : book.Author ≠ "")
    (hd : specCalendarDate book.PublishedDate = true)
    (hz : book.PublishedDate ≠ "0001-01-01") :
    validateBook book = none ∧
    (createBook db now (.ok book)).1.status ≠ StatusBadRequest ∧
    (updateBook db now idVar book).1.status ≠ StatusBadRequest := by
  have hsome : (parseDate book.PublishedDate).isSome = true := by
    rw [parseDate_isSome, hd]
  obtain ⟨d, hparse⟩ := Option.isSome_iff_exists.1 hsome
  have hne : book.PublishedDate ≠ "" := by
    intro h
    rw [h] at hd
    exact absurd hd (by decide)
  have hzero : d.IsZero = false := by
    cases hdz : d.IsZero with
    | false => rfl
    | true => exact absurd (parseDate_IsZero _ d hparse hdz) hz
  have hv : validateBook book = none := by
    unfold validateBook
    rw [if_neg (by simp [ht, ha, hne])]
    simp only [hparse, hzero, Bool.false_eq_true, if_false]
  refine ⟨hv, createBook_of_valid_status db now book hv, ?_⟩
  rw [updateBook_of_valid db now idVar book hv]
  show StatusOK ≠ StatusBadRequest
  decide

/-- Claim C21, amended, on the book Dune. -/
theorem valid_book_passes_validation_witness :
    validateBook duneBook = none ∧
    (createBook sampleStore 40 (.ok duneBook)).1.status ≠ StatusBadRequest ∧
    (updateBook sampleStore 40 "1" duneBook).1.status ≠ StatusBadRequest :=
  valid_book_passes_validation sampleStore 40 "1" duneBook (by decide) (by decide)
    (by decide) (by decide)

/-! ## Text order and chronological order -/

/-- One step of the text comparison, on character codes. -/
theorem textLt_cons (a b : Char) (as bs : List Char) :
    textLt (a :: as) (b :: bs) =
      if a.toNat < b.toNat then true else if b.toNat < a.toNat then false else textLt as bs := by
  rw [textLt]
  rfl

/-- The text comparison skips a common first character. -/
theorem textLt_cons_same (c : Char) (as bs : List Char) :
    textLt (c :: as) (c :: bs) = textLt as bs := by
  rw [textLt_cons, if_neg (lt_irrefl _), if_neg (lt_irrefl _)]

/-- One step of a lexicographic comparison as a Boolean formula. -/
theorem ite_lex (x y : Nat) (rest : Bool) :
    (if x < y then true else if y < x then false else rest) =
      (decide (x < y) || (decide (x = y) && rest)) := by
  by_cases h1 : x < y
  · simp [h1]
  · by_cases h2 : y < x
    · have h3 : x ≠ y := by omega
      simp [h1, h2, h3]
    · have h3 : x = y := by omega
      simp [h3]

/-- Comparing two digits in turn compares the two-digit numbers. -/
theorem lex2 (x1 x2 y1 y2 : Nat) (R : Bool)
    (hx1 : 48 ≤ x1 ∧ x1 ≤ 57) (hx2 : 48 ≤ x2 ∧ x2 ≤ 57)
    (hy1 : 48 ≤ y1 ∧ y1 ≤ 57) (hy2 : 48 ≤ y2 ∧ y2 ≤ 57) :
    (decide (x1 < y1) || (decide (x1 = y1) && (decide (x2 < y2) || (decide (x2 = y2) && R)))) =
      (decide ((x1 - 48) * 10 + (x2 - 48) < (y1 - 48) * 10 + (y2 - 48)) ||
        (decide ((x1 - 48) * 10 + (x2 - 48) = (y1 - 48) * 10 + (y2 - 48)) && R)) := by
  cases R <;> rw [Bool.eq_iff_iff] <;>
    simp only [Bool.or_eq_true, Bool.and_eq_true, decide_eq_true_eq, Bool.false_eq_true,
      and_false, or_false, and_true] <;>
    constructor <;> intro h <;> omega

/-- Comparing four digits in turn compares the four-digit numbers. -/
theorem lex4 (x1 x2 x3 x4 y1 y2 y3 y4 : Nat) (R : Bool)
    (hx1 : 48 ≤ x1 ∧ x1 ≤ 57) (hx2 : 48 ≤ x2 ∧ x2 ≤ 57)
    (hx3 : 48 ≤ x3 ∧ x3 ≤ 57) (hx4 : 48 ≤ x4 ∧ x4 ≤ 57)
    (hy1 : 48 ≤ y1 ∧ y1 ≤ 57) (hy2 : 48 ≤ y2 ∧ y2 ≤ 57)
    (hy3 : 48 ≤ y3 ∧ y3 ≤ 57) (hy4 : 48 ≤ y4 ∧ y4 ≤ 57) :
    (decide (x1 < y1) || (decide (x1 = y1) && (decide (x2 < y2) || (decide (x2 = y2) &&
      (decide (x3 < y3) || (decide (x3 = y3) && (decide (x4 < y4) || (decide (x4 = y4) && R)))))))) =
      (decide ((x1 - 48) * 1000 + (x2 - 48) * 100 + (x3 - 48) * 10 + (x4 - 48) <
          (y1 - 48) * 1000 + (y2 - 48) * 100 + (y3 - 48) * 10 + (y4 - 48)) ||
        (decide ((x1 - 48) * 1000 + (x2 - 48) * 100 + (x3 - 48) * 10 + (x4 - 48) =
          (y1 - 48) * 1000 + (y2 - 48) * 100 + (y3 - 48) * 10 + (y4 - 48)) && R)) := by
  cases R <;> rw [Bool.eq_iff_iff] <;>
    simp only [Bool.or_eq_true, Bool.and_eq_true, decide_eq_true_eq, Bool.false_eq_true,
      and_false, or_false, and_true] <;>
    constructor <;> intro h <;> omega

/-- On two texts accepted by `time.Parse` under `2006-01-02` the text
comparison of SQLite is the chronological order of the two dates. -/
theorem textLe_iff_notAfter (s t : String) (a b : Date)
    (hs : parseDate s = some a) (ht : parseDate t = some b) :
    textLe s t = true ↔ a.notAfter b = true := by
  obtain ⟨p1, p2, p3, p4, p5, p6, p7, p8, hsd, a1, a2, a3, a4, a5, a6, a7, a8, hy, hm, hd⟩ :=
    parseDate_shape s a hs
  obtain ⟨q1, q2, q3, q4, q5, q6, q7, q8, htd, b1, b2, b3, b4, b5, b6, b7, b8, ky, km, kd⟩ :=
    parseDate_shape t b ht
  have e1 := isDigit_bounds _ a1
  have e2 := isDigit_bounds _ a2
  have e3 := isDigit_bounds _ a3
  have e4 := isDigit_bounds _ a4
  have e5 := isDigit_bounds _ a5
  have e6 := isDigit_bounds _ a6
  have e7 := isDigit_bounds _ a7
  have e8 := isDigit_bounds _ a8
  have f1 := isDigit_bounds _ b1
  have f2 := isDigit_bounds _ b2
  have f3 := isDigit_bounds _ b3
  have f4 := isDigit_bounds _ b4
  have f5 := isDigit_bounds _ b5
  have f6 := isDigit_bounds _ b6
  have f7 := isDigit_bounds _ b7
  have f8 := isDigit_bounds _ b8
  simp only [digitVal, show '0'.toNat = 48 from rfl] at hy hm hd ky km kd
  unfold textLe Date.notAfter
  rw [hsd, htd, hy, hm, hd, ky, km, kd]
  rw [textLt_cons, textLt_cons, textLt_cons, textLt_cons, textLt_cons_same, textLt_cons,
    textLt_cons, textLt_cons_same, textLt_cons, textLt_cons, textLt]
  simp only [ite_lex]
  rw [lex4 q1.toNat q2.toNat q3.toNat q4.toNat p1.toNat p2.toNat p3.toNat p4.toNat _
      f1 f2 f3 f4 e1 e2 e3 e4,
    lex2 q5.toNat q6.toNat p5.toNat p6.toNat _ f5 f6 e5 e6,
    lex2 q7.toNat q8.toNat p7.toNat p8.toNat _ f7 f8 e7 e8]
  generalize (p1.toNat - 48) * 1000 + (p2.toNat - 48) * 100 + (p3.toNat - 48) * 10 +
    (p4.toNat - 48) = ys
  generalize (q1.toNat - 48) * 1000 + (q2.toNat - 48) * 100 + (q3.toNat - 48) * 10 +
    (q4.toNat - 48) = yt
  generalize (p5.toNat - 48) * 10 + (p6.toNat - 48) = ms
  generalize (q5.toNat - 48) * 10 + (q6.toNat - 48) = mt
  generalize (p7.toNat - 48) * 10 + (p8.toNat - 48) = ds
  generalize (q7.toNat - 48) * 10 + (q8.toNat - 48) = dt
  rw [Bool.not_eq_true', ← Bool.not_eq_true]
  simp only [Bool.or_eq_true, Bool.and_eq_true, decide_eq_true_eq, Bool.false_eq_true,
    and_false, or_false]
  constructor <;> intro h <;> omega

/-- Claim C28: when the bounds `from` and `to` parse under the layout
`2006-01-02`, the text comparison used by `GetBooks` on a published date that
parses too agrees with the chronological order of the dates; so on a store
whose published dates all parse, the from/to filter returns exactly the books
published within the inclusive calendar range. -/
theorem date_range_filter_chronological (db : Store) (from_ to_ : String) (dfrom dto : Date)
    (hf : parseDate from_ = some dfrom) (ht : parseDate to_ = some dto) :
    (∀ (s : String) (d : Date), parseDate s = some d →
      (textLe from_ s = true ↔ dfrom.notAfter d = true) ∧
      (textLe s to_ = true ↔ d.notAfter dto = true)) ∧
    ((∀ r ∈ db.books, (parseDate r.published_date).isSome = true) →
      GetBooks db "" "" from_ to_ = .ok ((db.books.filter (fun r =>
        match parseDate r.published_date with
        | some d => dfrom.notAfter d && d.notAfter dto
        | none => false)).map scanBook)) := by
  have hcmp : ∀ (s : String) (d : Date), parseDate s = some d →
      (textLe from_ s = true ↔ dfrom.notAfter d = true) ∧
      (textLe s to_ = true ↔ d.notAfter dto = true) :=
    fun s d hs => ⟨textLe_iff_notAfter from_ s dfrom d hf hs,
      textLe_iff_notAfter s to_ d dto hs ht⟩
  refine ⟨hcmp, ?_⟩
  intro hall
  have hempty : parseDate "" = none := rfl
  have hfne : from_ ≠ "" := by
    intro h
    rw [h, hempty] at hf
    exact absurd hf (by simp)
  have htne : to_ ≠ "" := by
    intro h
    rw [h, hempty] at ht
    exact absurd ht (by simp)
  unfold GetBooks
  simp only [Except.ok.injEq]
  congr 1
  apply List.filter_congr
  intro r hr
  obtain ⟨d, hd⟩ := Option.isSome_iff_exists.1 (hall r hr)
  rw [Bool.eq_iff_iff, query_all_iff]
  simp only [hd, hfne, htne, false_or, true_or, true_and, Bool.and_eq_true]
  rw [← (hcmp _ d hd).1, ← (hcmp _ d hd).2, textLe_iff, textLe_iff]

/-- Claim C28 on `sampleStore`: the range from 1900-01-01 to 1999-12-31 holds
Dune (1965) and not Emma (1815). -/
theorem date_range_filter_chronological_witness :
    GetBooks sampleStore "" "" "1900-01-01" "1999-12-31" =
      .ok [⟨1, "Dune", "Herbert", "1965-08-01", "1st", "", "SciFi", 10, 10⟩] :=
  (date_range_filter_chronological sampleStore "1900-01-01" "1999-12-31"
    ⟨1900, 1, 1⟩ ⟨1999, 12, 31⟩ rfl rfl).2 (by decide)

/-! ## Exit status of the CLI -/

/-- Claim C26 at failing inputs: with the id flag `abc`, which is not an
integer, the subcommands `book get`, `book update` and `book delete` print the
error after `Invalid ID format:` and end with exit status 0; `book update` with
an integer id and no title prints the error of the mandatory fields and ends
with exit status 0.  The sibling subcommands go through `handleErr` and end
with status 1: `collection get` with the id `abc`, and `book add` with no
title. -/
theorem book_subcommands_exit_zero_on_error (bookman : Client) :
    Atoi "abc" = (0, true) ∧
    bookGetCmd bookman "abc" = ⟨[.labelled "Invalid ID format:" (.atoi "abc")], 0⟩ ∧
    bookUpdateCmd bookman "abc" "Dune" "Herbert" "1965-08-01" "" "" "" =
      ⟨[.labelled "Invalid ID format:" (.atoi "abc")], 0⟩ ∧
    bookDeleteCmd bookman "abc" = ⟨[.labelled "Invalid ID format:" (.atoi "abc")], 0⟩ ∧
    bookUpdateCmd bookman "1" "" "Herbert" "1965-08-01" "" "" "" =
      ⟨[.err (.flags "title, author, and published are mandatory fields")], 0⟩ ∧
    collectionGetCmd bookman "abc" = ⟨[.labelled "Error:" (.atoi "abc")], 1⟩ ∧
    bookAddCmd bookman "" "Herbert" "1965-08-01" "" "" "" =
      ⟨[.labelled "Error:" (.flags "title, author, and published are mandatory fields")], 1⟩ :=
  ⟨rfl, rfl, rfl, rfl, rfl, rfl, rfl⟩

end Bookman
